import Mathlib

/-!
Verification of the market-breadth / sector-rotation pipeline of the
`industry-runners` repository: trading calendar (`api/shared/market_calendar.py`),
cache store (`api/shared/cache.py`), the Finviz breadth endpoint
(`api/breadth-daily/__init__.py`), the Polygon breadth aggregator
(`api/breadth/__init__.py`) and the sector NH/NL fix endpoint
(`api/fix-sector-nhnl/__init__.py`), shallowly embedded in Lean.

Conventions of the embedding:
* Python `datetime.date` values are `PyDate` records; `date.replace(day=k)`
  raises `ValueError` when `k` is out of range for the month, modelled by
  `Except String`.
* Python integers are `Int`/`Nat`; Python floor division `//` and `%` are
  `Int.fdiv`/`Int.fmod` (they agree with Python on negative operands).
* Redis state is an explicit `RState`; every client call either performs its
  in-memory Redis semantics or raises, modelled by an `Except` result, with a
  `failing` flag standing for an unreachable backend.
* JSON documents are the inductive `Json`; `json.dumps`/`json.loads` on the
  wire are modelled as the identity on this AST (the Python dict -> string ->
  dict round trip is lossless for the JSON-representable payloads involved).
-/

namespace IndustryRunners

/-! ## Gregorian date arithmetic (model of Python `datetime.date`) -/

structure PyDate where
  year : Nat
  month : Nat
  day : Nat
deriving DecidableEq, Repr

def isLeap (y : Nat) : Bool :=
  (y % 4 == 0 && y % 100 != 0) || y % 400 == 0

def monthLength (leap : Bool) (m : Nat) : Nat :=
  match m with
  | 1 => 31 | 2 => if leap then 29 else 28 | 3 => 31 | 4 => 30
  | 5 => 31 | 6 => 30 | 7 => 31 | 8 => 31
  | 9 => 30 | 10 => 31 | 11 => 30 | 12 => 31
  | _ => 0

def daysInMonth (y m : Nat) : Nat :=
  monthLength (isLeap y) m

/-- Days before month `m` within a year. -/
def cumDaysBefore (leap : Bool) (m : Nat) : Nat :=
  match m with
  | 1 => 0 | 2 => 31 | 3 => if leap then 60 else 59 | 4 => if leap then 91 else 90
  | 5 => if leap then 121 else 120 | 6 => if leap then 152 else 151
  | 7 => if leap then 182 else 181 | 8 => if leap then 213 else 212
  | 9 => if leap then 244 else 243 | 10 => if leap then 274 else 273
  | 11 => if leap then 305 else 304 | 12 => if leap then 335 else 334
  | _ => 0

def PyDate.Valid (d : PyDate) : Prop :=
  1 ≤ d.year ∧ 1 ≤ d.month ∧ d.month ≤ 12 ∧ 1 ≤ d.day ∧ d.day ≤ daysInMonth d.year d.month

instance (d : PyDate) : Decidable d.Valid := by
  unfold PyDate.Valid; infer_instance

/-- Number of leap years in `1..n`. -/
def leapCount (n : Nat) : Nat :=
  n / 4 - n / 100 + n / 400

/-- Days elapsed since 0001-01-01 (proleptic Gregorian); `0001-01-01 -> 0`. -/
def daysFromOrigin (d : PyDate) : Nat :=
  365 * (d.year - 1) + leapCount (d.year - 1) + cumDaysBefore (isLeap d.year) d.month + (d.day - 1)

/-- Python `date.weekday()`: Monday = 0, ..., Sunday = 6.
0001-01-01 was a Monday, so this is the day count mod 7. -/
def PyDate.weekday (d : PyDate) : Nat :=
  daysFromOrigin d % 7

/-- Python `d.replace(day=k)`: raises `ValueError` when `k` is out of range. -/
def pyReplaceDay (d : PyDate) (k : Int) : Except String PyDate :=
  if 1 ≤ k ∧ k ≤ (daysInMonth d.year d.month : Int) then
    .ok ⟨d.year, d.month, k.toNat⟩
  else
    .error "ValueError: day is out of range for month"

/-- Chronological order on dates. -/
def PyDate.Before (a b : PyDate) : Prop :=
  a.year < b.year ∨ (a.year = b.year ∧ a.month < b.month) ∨
    (a.year = b.year ∧ a.month = b.month ∧ a.day < b.day)

instance (a b : PyDate) : Decidable (a.Before b) := by
  unfold PyDate.Before; infer_instance

/-! ## `api/shared/market_calendar.py` -/

/-- The `while d.weekday() != target: d = d.replace(day=d.day + 1)` loops of
`_mlk_day`, `_presidents_day`, `_labor_day`, `_thanksgiving`.  The loop visits
at most 7 days (weekday cycles with period 7), so fuel 7 always suffices; the
fuel-exhausted branch is unreachable. -/
def stepToWeekdayFwd (target : Nat) : Nat → PyDate → Except String PyDate
  | 0, _ => .error "unreachable: weekday cycle exceeded"
  | fuel + 1, d =>
    if d.weekday = target then .ok d
    else do
      let d' ← pyReplaceDay d ((d.day : Int) + 1)
      stepToWeekdayFwd target fuel d'

/-- The backward loop of `_memorial_day`. -/
def stepToWeekdayBwd (target : Nat) : Nat → PyDate → Except String PyDate
  | 0, _ => .error "unreachable: weekday cycle exceeded"
  | fuel + 1, d =>
    if d.weekday = target then .ok d
    else do
      let d' ← pyReplaceDay d ((d.day : Int) - 1)
      stepToWeekdayBwd target fuel d'

/-- `_mlk_day`: third Monday of January. -/
def mlkDay (year : Nat) : Except String PyDate := do
  let d ← stepToWeekdayFwd 0 7 ⟨year, 1, 1⟩
  pyReplaceDay d ((d.day : Int) + 14)

/-- `_presidents_day`: third Monday of February. -/
def presidentsDay (year : Nat) : Except String PyDate := do
  let d ← stepToWeekdayFwd 0 7 ⟨year, 2, 1⟩
  pyReplaceDay d ((d.day : Int) + 14)

/-- `_memorial_day`: last Monday of May. -/
def memorialDay (year : Nat) : Except String PyDate :=
  stepToWeekdayBwd 0 7 ⟨year, 5, 31⟩

/-- `_labor_day`: first Monday of September. -/
def laborDay (year : Nat) : Except String PyDate :=
  stepToWeekdayFwd 0 7 ⟨year, 9, 1⟩

/-- `_thanksgiving`: fourth Thursday of November. -/
def thanksgiving (year : Nat) : Except String PyDate := do
  let d ← stepToWeekdayFwd 3 7 ⟨year, 11, 1⟩
  pyReplaceDay d ((d.day : Int) + 21)

/-- `_good_friday`: Easter minus two days via the anonymous Gregorian
algorithm.  Python integer `//` and `%` are `Int.fdiv`/`Int.fmod`.  Note that
`easter.replace(day=easter.day - 2)` raises `ValueError` when Easter falls on
April 1 or April 2. -/
def goodFriday (year : Nat) : Except String PyDate := do
  let y : Int := year
  let a := y.fmod 19
  let b := y.fdiv 100
  let c := y.fmod 100
  let d := b.fdiv 4
  let e := b.fmod 4
  let f := (b + 8).fdiv 25
  let g := (b - f + 1).fdiv 3
  let h := (19 * a + b - d - g + 15).fmod 30
  let i := c.fdiv 4
  let k := c.fmod 4
  let l := (32 + 2 * e + 2 * i - h - k).fmod 7
  let m := (a + 11 * h + 22 * l).fdiv 451
  let month := (h + l - 7 * m + 114).fdiv 31
  let day := (h + l - 7 * m + 114).fmod 31 + 1
  let easter : PyDate := ⟨year, month.toNat, day.toNat⟩
  pyReplaceDay easter ((easter.day : Int) - 2)

/-- `_observed`: Saturday holidays observed Friday, Sunday holidays observed
Monday.  `replace(day=d.day - 1)` raises `ValueError` when the holiday is a
Saturday the 1st (e.g. New Year's Day 2028). -/
def observed (d : PyDate) : Except String PyDate :=
  if d.weekday = 5 then pyReplaceDay d ((d.day : Int) - 1)
  else if d.weekday = 6 then pyReplaceDay d ((d.day : Int) + 1)
  else .ok d

/-- `get_market_holidays`: the NYSE/NASDAQ holiday set of a year (as a list;
only membership is ever used). -/
def get_market_holidays (year : Nat) : Except String (List PyDate) := do
  let newYears ← observed ⟨year, 1, 1⟩
  let mlk ← mlkDay year
  let pres ← presidentsDay year
  let gf ← goodFriday year
  let mem ← memorialDay year
  let june ← observed ⟨year, 6, 19⟩
  let indep ← observed ⟨year, 7, 4⟩
  let labor ← laborDay year
  let thanks ← thanksgiving year
  let xmas ← observed ⟨year, 12, 25⟩
  .ok [newYears, mlk, pres, gf, mem, june, indep, labor, thanks, xmas]

/-- `_SPECIAL_CLOSURES`. -/
def specialClosures : List PyDate := [⟨2025, 1, 9⟩]

/-- `is_market_open` applied to an already-parsed date. -/
def marketOpenOn (d : PyDate) : Except String Bool :=
  if d.weekday ≥ 5 then .ok false
  else if specialClosures.contains d then .ok false
  else do
    let holidays ← get_market_holidays d.year
    .ok (! holidays.contains d)

/-- `get_closure_reason` applied to an already-parsed date. -/
def closureReasonOn (d : PyDate) : Except String String :=
  if d.weekday = 5 then .ok "Saturday"
  else if d.weekday = 6 then .ok "Sunday"
  else if specialClosures.contains d then .ok "Special market closure"
  else do
    let holidays ← get_market_holidays d.year
    .ok (if holidays.contains d then "US stock market holiday" else "")

/-- Split a character list at `'-'` separators. -/
def splitDashAux : List Char → List Char → List (List Char)
  | [], acc => [acc.reverse]
  | c :: rest, acc =>
    if c = '-' then acc.reverse :: splitDashAux rest []
    else splitDashAux rest (c :: acc)

def splitDash (cs : List Char) : List (List Char) :=
  splitDashAux cs []

/-- Parse a non-empty all-digit character list. -/
def digitsToNat : List Char → Nat → Option Nat
  | [], n => some n
  | c :: rest, n =>
    if '0' ≤ c ∧ c ≤ '9' then digitsToNat rest (n * 10 + (c.toNat - 48))
    else none

/-- `datetime.strptime(date_str, "%Y-%m-%d").date()`: parse a `YYYY-MM-DD`
string (`%Y` four digits, `%m`/`%d` one or two digits), validating calendar
ranges; `none` models the `ValueError` of a malformed string. -/
def strptimeYMD (s : String) : Option PyDate :=
  match splitDash s.data with
  | [ys, ms, ds] =>
    if ys.length = 4 ∧ 1 ≤ ms.length ∧ ms.length ≤ 2 ∧ 1 ≤ ds.length ∧ ds.length ≤ 2 then
      match digitsToNat ys 0, digitsToNat ms 0, digitsToNat ds 0 with
      | some y, some m, some dd =>
        let d : PyDate := ⟨y, m, dd⟩
        if d.Valid then some d else none
      | _, _, _ => none
    else none
  | _ => none

/-- `is_market_open(date_str)`. -/
def is_market_open (s : String) : Except String Bool :=
  match strptimeYMD s with
  | none => .error "ValueError: time data does not match format Y-m-d"
  | some d => marketOpenOn d

/-- `get_closure_reason(date_str)`. -/
def get_closure_reason (s : String) : Except String String :=
  match strptimeYMD s with
  | none => .error "ValueError: time data does not match format Y-m-d"
  | some d => closureReasonOn d

/-! ## JSON documents -/

/-- JSON values, the payloads stored in the cache.  `json.dumps`/`json.loads`
are modelled as the identity on this AST: the Python dict -> string -> dict
round trip is lossless for these payloads. -/
inductive Json where
  | null
  | bool (b : Bool)
  | num (q : ℚ)
  | str (s : String)
  | arr (xs : List Json)
  | obj (fields : List (String × Json))

/-- Python truthiness of a JSON value (`if cached:` on a decoded dict). -/
def Json.truthy : Json → Bool
  | .null => false
  | .bool b => b
  | .num q => q != 0
  | .str s => s ≠ ""
  | .arr xs => !xs.isEmpty
  | .obj fs => !fs.isEmpty

/-- Association-list update preserving insertion order (Python dict
assignment `d[k] = v`). -/
def setField {α : Type} (l : List (String × α)) (k : String) (v : α) : List (String × α) :=
  match l with
  | [] => [(k, v)]
  | (k', v') :: rest => if k' = k then (k, v) :: rest else (k', v') :: setField rest k v

/-- `d[k] = v` on a JSON object (all values mutated this way in the sources
are decoded dicts). -/
def Json.setKey : Json → String → Json → Json
  | .obj fs, k, v => .obj (setField fs k v)
  | j, _, _ => j

/-- Field read on a JSON object. -/
def Json.getKey : Json → String → Option Json
  | .obj fs, k => fs.lookup k
  | _, _ => none

/-! ## Redis state and primitive commands (`api/shared/cache.py` backend) -/

/-- Local-midnight POSIX timestamp of a date
(`datetime.strptime(date, "%Y-%m-%d").timestamp()`), in seconds;
1970-01-01 has `daysFromOrigin = 719162`.  The constant timezone offset of the
host clock shifts every timestamp (scores and `datetime.now().timestamp()`
alike) equally and is dropped. -/
def dateToTs (d : PyDate) : Int :=
  86400 * ((daysFromOrigin d : Int) - 719162)

/-- The wall clock `datetime.now()`, as the pair of values the code reads off
it: `strftime("%Y-%m-%d")` and `timestamp()`. -/
structure Clock where
  dateStr : String
  ts : Int

/-- Sorted-set ordering used by `ZREVRANGE`: score descending, ties in
reverse lexicographic member order. -/
def zBefore (a b : String × Int) : Bool :=
  b.2 < a.2 || (b.2 == a.2 && decide (b.1 < a.1))

def zinsertSorted (p : String × Int) : List (String × Int) → List (String × Int)
  | [] => [p]
  | q :: rest => if zBefore p q then p :: q :: rest else q :: zinsertSorted p rest

/-- `ZADD key {member: score}`: replace the member's score and keep the set
ordered. -/
def zaddList (l : List (String × Int)) (m : String) (s : Int) : List (String × Int) :=
  zinsertSorted (m, s) (l.filter (fun p => p.1 ≠ m))

/-- Redis server state.  `failing` stands for an unreachable/erroring backend:
when set, every command raises.  `kv` are the string keys (values kept in
decoded form, see `Json`), `zsets` the sorted sets, each kept in `ZREVRANGE`
order.  TTL metadata is not tracked (no claim depends on expiry). -/
structure RState where
  failing : Bool
  kv : List (String × Json)
  zsets : List (String × List (String × Int))

def RState.zsetOf (st : RState) (k : String) : List (String × Int) :=
  (st.zsets.lookup k).getD []

/-- `client.get(key)`. -/
def rGet (st : RState) (k : String) : Except Unit (Option Json) :=
  if st.failing then .error () else .ok (st.kv.lookup k)

/-- `client.set(key, value)`. -/
def rSet (st : RState) (k : String) (v : Json) : Except Unit RState :=
  if st.failing then .error ()
  else .ok { st with kv := setField st.kv k v }

/-- `client.setex(key, ttl, value)`; Redis raises on a non-positive TTL. -/
def rSetex (st : RState) (k : String) (ttl : Int) (v : Json) : Except Unit RState :=
  if st.failing then .error ()
  else if ttl ≤ 0 then .error ()
  else .ok { st with kv := setField st.kv k v }

/-- `client.zadd(key, {member: score})`. -/
def rZadd (st : RState) (k : String) (m : String) (s : Int) : Except Unit RState :=
  if st.failing then .error ()
  else .ok { st with zsets := setField st.zsets k (zaddList (st.zsetOf k) m s) }

/-- `client.zremrangebyscore(key, "-inf", maxScore)`: drop members with score
`≤ maxScore` (the upper bound is inclusive). -/
def rZremRangeToInf (st : RState) (k : String) (maxScore : Int) : Except Unit RState :=
  if st.failing then .error ()
  else .ok { st with zsets := setField st.zsets k ((st.zsetOf k).filter (fun p => maxScore < p.2)) }

/-- `client.zrevrange(key, start, stop)`: slice of the reverse-ordered set,
with Redis negative-index semantics (an index `< 0` counts from the end, so
`stop = -1` means the last element). -/
def rZrevrange (st : RState) (k : String) (start stop : Int) : Except Unit (List String) :=
  if st.failing then .error ()
  else
    let l := (st.zsetOf k).map Prod.fst
    let n : Int := l.length
    let s := if start < 0 then max (n + start) 0 else start
    let e := if stop < 0 then n + stop else min stop (n - 1)
    .ok (((l.drop s.toNat).take (e - s + 1).toNat))

/-- `client.exists(key)`. -/
def rExists (st : RState) (k : String) : Except Unit Bool :=
  if st.failing then .error () else .ok (st.kv.lookup k).isSome

/-! ## `api/shared/cache.py` -/

/-- `get_cached(key)`.  `hasClient` models `get_redis_client()` returning a
client or `None`.  The `if data:` string-truthiness test always passes for a
present key, since `json.dumps` output is a non-empty string. -/
def get_cached (hasClient : Bool) (st : RState) (key : String) : Option Json :=
  if !hasClient then none
  else
    match rGet st key with
    | .error _ => none
    | .ok none => none
    | .ok (some data) => some data

/-- `set_cached(key, data, ttl)` (default TTL `CACHE_TTL_REALTIME = 300`). -/
def set_cached (hasClient : Bool) (st : RState) (key : String) (data : Json) (ttl : Int) :
    Bool × RState :=
  if !hasClient then (false, st)
  else
    match rSetex st key ttl data with
    | .error _ => (false, st)
    | .ok st' => (true, st')

/-- `save_daily_snapshot(key_pfx, data, date)`; `date=None` defaults to
`datetime.now().strftime("%Y-%m-%d")`.  Any raising step inside the `try`
yields `False` while keeping the effects of the steps already performed. -/
def save_daily_snapshot (hasClient : Bool) (st : RState) (now : Clock)
    (key_pfx : String) (data : Json) (dateArg : Option String) : Bool × RState :=
  if !hasClient then (false, st)
  else
    let date := dateArg.getD now.dateStr
    let snapshot_key := key_pfx ++ ":history:" ++ date
    match rSet st snapshot_key data with
    | .error _ => (false, st)
    | .ok st1 =>
      let dates_key := key_pfx ++ ":history:dates"
      match strptimeYMD date with
      | none => (false, st1)
      | some d =>
        match rZadd st1 dates_key date (dateToTs d) with
        | .error _ => (false, st1)
        | .ok st2 =>
          let cutoff := now.ts - 30 * 86400
          match rZremRangeToInf st2 dates_key cutoff with
          | .error _ => (false, st2)
          | .ok st3 => (true, st3)

/-- The `for date in dates:` body of `get_history`; a raising `client.get`
aborts the whole function (handled by the caller's `except`). -/
def getHistoryLoop (st : RState) (key_pfx : String) :
    List String → Except Unit (List (String × Json))
  | [] => .ok []
  | date :: rest => do
    let data ← rGet st (key_pfx ++ ":history:" ++ date)
    let tail ← getHistoryLoop st key_pfx rest
    match data with
    | some v => .ok ((date, v) :: tail)
    | none => .ok tail

/-- `get_history(key_pfx, days)` (default `HISTORY_DAYS = 5`). -/
def get_history (hasClient : Bool) (st : RState) (key_pfx : String) (days : Int) :
    List (String × Json) :=
  if !hasClient then []
  else
    match rZrevrange st (key_pfx ++ ":history:dates") 0 (days - 1) with
    | .error _ => []
    | .ok dates =>
      match getHistoryLoop st key_pfx dates with
      | .error _ => []
      | .ok history => history

/-- `should_save_daily_snapshot(key_pfx)`. -/
def should_save_daily_snapshot (hasClient : Bool) (st : RState) (now : Clock)
    (key_pfx : String) : Bool :=
  if !hasClient then false
  else
    let snapshot_key := key_pfx ++ ":history:" ++ now.dateStr
    match rExists st snapshot_key with
    | .error _ => false
    | .ok b => !b

/-! ## `api/breadth-daily/__init__.py` -/

/-- Python `round(x, 2)` (round half to even), on exact rationals. -/
def roundHalfEven (q : ℚ) : ℤ :=
  let f := ⌊q⌋
  if q - f < 1/2 then f
  else if 1/2 < q - f then f + 1
  else if Even f then f else f + 1

def round2 (q : ℚ) : ℚ :=
  (roundHalfEven (q * 100) : ℚ) / 100

/-- The per-filter counts fetched from the Finviz screener (`results` dict in
`main`; each entry is a parsed non-negative count, network supplied). -/
structure FinvizCounts where
  new52WeekHigh : Nat
  new52WeekLow : Nat
  rsiAbove70 : Nat
  rsiBelow30 : Nat
  aboveSMA20 : Nat
  belowSMA20 : Nat
  aboveSMA50 : Nat
  belowSMA50 : Nat
  aboveSMA200 : Nat
  belowSMA200 : Nat
  sma50AboveSMA200 : Nat
  sma50BelowSMA200 : Nat

/-- `high_low_ratio` (lines 163-167 of `api/breadth-daily/__init__.py`). -/
def highLowRatioOf (r : FinvizCounts) : Option ℚ :=
  if r.new52WeekLow > 0 then some (round2 ((r.new52WeekHigh : ℚ) / (r.new52WeekLow : ℚ)))
  else if r.new52WeekHigh > 0 then some (9999 / 100)
  else none

/-- `rsi_ratio` (lines 169-173). -/
def rsiRatioOf (r : FinvizCounts) : Option ℚ :=
  if r.rsiBelow30 > 0 then some (round2 ((r.rsiAbove70 : ℚ) / (r.rsiBelow30 : ℚ)))
  else if r.rsiAbove70 > 0 then some (9999 / 100)
  else none

def jsonOfOptQ : Option ℚ → Json
  | some q => .num q
  | none => .null

/-- The `response` dict built by `main` (lines 176-203), field order as in the
source; `timestamp` is `int(now.timestamp() * 1000)`. -/
def breadthDailyBody (universeCount : Nat) (r : FinvizCounts) (now : Clock) : Json :=
  .obj
    [ ("date", .str now.dateStr),
      ("timestamp", .num ((now.ts * 1000 : Int) : ℚ)),
      ("universeCount", .num (universeCount : ℚ)),
      ("cached", .bool false),
      ("highs", .obj
        [ ("new52WeekHigh", .num (r.new52WeekHigh : ℚ)),
          ("new52WeekLow", .num (r.new52WeekLow : ℚ)),
          ("highLowRatio", jsonOfOptQ (highLowRatioOf r)) ]),
      ("rsi", .obj
        [ ("above70", .num (r.rsiAbove70 : ℚ)),
          ("below30", .num (r.rsiBelow30 : ℚ)),
          ("rsiRatio", jsonOfOptQ (rsiRatioOf r)) ]),
      ("sma", .obj
        [ ("aboveSMA20", .num (r.aboveSMA20 : ℚ)),
          ("belowSMA20", .num (r.belowSMA20 : ℚ)),
          ("aboveSMA50", .num (r.aboveSMA50 : ℚ)),
          ("belowSMA50", .num (r.belowSMA50 : ℚ)),
          ("aboveSMA200", .num (r.aboveSMA200 : ℚ)),
          ("belowSMA200", .num (r.belowSMA200 : ℚ)) ]),
      ("trend", .obj
        [ ("goldenCross", .num (r.sma50AboveSMA200 : ℚ)),
          ("deathCross", .num (r.sma50BelowSMA200 : ℚ)) ]) ]

/-- The cache-miss path of `main` (lines 149-216): build the response, cache
it under `breadth:daily` with `CACHE_TTL_DAILY = 3600`, then save a daily
snapshot when `should_save_daily_snapshot` allows.  The Finviz fetches are
the `universeCount`/`counts` inputs. -/
def breadthDailyFresh (hasClient : Bool) (st : RState) (universeCount : Nat)
    (counts : FinvizCounts) (now : Clock) : Json × RState :=
  let response := breadthDailyBody universeCount counts now
  let st1 := (set_cached hasClient st "breadth:daily" response 3600).2
  let st2 :=
    if should_save_daily_snapshot hasClient st1 now "breadth:daily" then
      (save_daily_snapshot hasClient st1 now "breadth:daily" response none).2
    else st1
  (response, st2)

/-- Lines 139-147: the cached dict served on a hit (`if not bypass_cache:`
then `cached = get_cached(...)`, served when `if cached:` is truthy). -/
def breadthDailyHit (hasClient : Bool) (st : RState) (bypass : Bool) : Option Json :=
  if bypass then none
  else
    match get_cached hasClient st "breadth:daily" with
    | some c => if c.truthy then some c else none
    | none => none

/-- `main` of `api/breadth-daily/__init__.py` as a state transformer: returns
the serialized body and the cache state after the call.  `bypass` is
`req.params.get("refresh") == "true"`. -/
def breadth_daily_main (hasClient : Bool) (st : RState) (bypass : Bool)
    (universeCount : Nat) (counts : FinvizCounts) (now : Clock) : Json × RState :=
  match breadthDailyHit hasClient st bypass with
  | some cached => (cached.setKey "cached" (.bool true), st)
  | none => breadthDailyFresh hasClient st universeCount counts now

/-! ## `api/fix-sector-nhnl/__init__.py`, history update (lines 220-241) -/

/-- One `{date, sectors}` day entry of `sector-rotation:nh-nl-history`
(entries built at line 224 always carry both fields, so they are modelled as
a record). -/
structure DayEntry where
  date : String
  sectors : Json

/-- Stable descending sort by date used at line 239
(`sorted(..., key=lambda x: x["date"], reverse=True)`). -/
def sortDaysDesc (days : List DayEntry) : List DayEntry :=
  days.mergeSort (fun a b => !decide (a.date < b.date))

/-- Lines 229-239: replace the existing entry for the target date (or append)
then keep the 20 most recent entries.  There is no all-zero guard: the new
`day_data` always replaces whatever was stored for that date. -/
def nhnlUpsert (days : List DayEntry) (day_data : DayEntry) : List DayEntry :=
  match days.findIdx? (fun d => d.date == day_data.date) with
  | some idx => days.set idx day_data
  | none => days ++ [day_data]

def updateNhNlDays (days : List DayEntry) (day_data : DayEntry) : List DayEntry :=
  (sortDaysDesc (nhnlUpsert days day_data)).take 20

/-! ## `api/breadth/__init__.py` -/

/-- The raw `BREADTH_UNIVERSE` literal (lines 14-91) before the
`sorted(list(set(...)))` normalization of line 94. -/
def rawBreadthUniverse : List String :=
  [
    "SMH", "NVDA", "TSM", "AVGO", "MU", "ASML", "LRCX", "INTC", "KLAC", "AMD", "AMAT", "MRVL",
    "QCOM", "TXN", "ON", "MPWR", "ADI", "NXPI", "SWKS", "FDN", "META", "AMZN", "GOOGL", "NFLX",
    "CRM", "ABNB", "PYPL", "SHOP", "UBER", "NOW", "SPOT", "PINS", "SNAP", "ZM", "ETSY", "GDDY",
    "IAC", "DBX", "IGV", "MSFT", "ADBE", "INTU", "ORCL", "SNPS", "PANW", "CDNS", "WDAY", "DDOG",
    "TEAM", "PLTR", "HUBS", "VEEV", "TTD", "ANSS", "MANH", "KWEB", "TCEHY", "BABA", "PDD", "MPNGY",
    "NTES", "KUAIY", "JD", "BIDU", "TCOM", "BEKE", "BILI", "LI", "XPEV", "NIO", "ZTO", "IQ",
    "KC", "BZUN", "CIBR", "FTNT", "CRWD", "CSCO", "OKTA", "ZS", "CHKP", "GEN", "BB", "CYBR",
    "QLYS", "TENB", "RPD", "VRNS", "S", "FFIV", "AKAM", "BLOK", "BITB", "IBIT", "CME", "CUBI",
    "HUT", "GLXY", "HOOD", "CIFR", "CLSK", "COIN", "MARA", "RIOT", "MSTR", "SQ", "IBM", "OSTK",
    "SI", "BTBT", "ROBO", "ISRG", "TER", "ROK", "NOVT", "SYM", "HON", "ABB", "IRBT", "KUKA",
    "FANUY", "CGNX", "BRKS", "PATH", "AI", "UPST", "BILL", "MTSI", "NNDM", "XLE", "XOM", "CVX",
    "COP", "SLB", "WMB", "EOG", "PSX", "VLO", "KMI", "MPC", "HAL", "OKE", "DVN", "FANG",
    "BKR", "TRGP", "OXY", "HES", "CTRA", "XOP", "TPL", "PBF", "MRO", "APA", "MGY", "MTDR",
    "CHRD", "PR", "SM", "NOG", "VTLE", "AR", "TAN", "FSLR", "NXT", "RUN", "ENPH", "HASI",
    "SEDG", "DQ", "ARRY", "NOVA", "MAXN", "CSIQ", "SPWR", "BEEM", "SOL", "JKS", "SHLS", "BE",
    "XME", "AA", "CDE", "HL", "HCC", "FCX", "RGLD", "CLF", "NEM", "CMC", "X", "STLD",
    "NUE", "RS", "ATI", "CENX", "BTU", "ARCH", "AMR", "XLB", "LIN", "APD", "SHW", "CTVA",
    "ECL", "DD", "PPG", "VMC", "IFF", "MLM", "ALB", "BALL", "FMC", "CF", "MOS", "CE",
    "EMN", "GDX", "AEM", "GOLD", "AU", "WPM", "GFI", "FNV", "KGC", "PAAS", "AGI", "HMY",
    "IAG", "BTG", "EGO", "SSRM", "MAG", "EXK", "NGD", "XLV", "LLY", "UNH", "JNJ", "ABBV",
    "MRK", "TMO", "ABT", "DHR", "AMGN", "PFE", "SYK", "GILD", "REGN", "MDT", "CVS", "ELV",
    "CI", "BMY", "XBI", "RVMD", "MRNA", "FOLD", "KRYS", "ROIV", "HALO", "PRAX", "EXEL", "INCY",
    "VRTX", "BIIB", "BMRN", "ALNY", "SRPT", "ARGX", "IONS", "SGEN", "UTHR", "MSOS", "TCNNF", "CURLF",
    "GTBIF", "CRLBF", "GLASF", "VRNOF", "TSNDF", "JUSHF", "VFF", "CXXIF", "CGC", "TLRY", "ACB", "OGI",
    "CRON", "SNDL", "GRWG", "XLF", "BRK-B", "JPM", "V", "MA", "BAC", "GS", "WFC", "MS",
    "C", "AXP", "SPGI", "BLK", "CB", "PGR", "SCHW", "MMC", "ICE", "AON", "TRV", "XLY",
    "TSLA", "HD", "MCD", "NKE", "LOW", "BKNG", "SBUX", "TJX", "ORLY", "DHI", "LEN", "ROST",
    "YUM", "AZO", "POOL", "DECK", "GRMN", "XRT", "CVNA", "KMX", "AN", "M", "JWN", "KSS",
    "GPS", "GME", "BBY", "TSCO", "W", "DKS", "ULTA", "BBWI", "BOOT", "BKE", "FIVE", "CAL",
    "XLP", "PG", "COST", "PEP", "KO", "PM", "WMT", "MDLZ", "MO", "TGT", "CL", "KHC",
    "GIS", "SYY", "HSY", "K", "CAG", "TSN", "HRL", "CPB", "PEJ", "DIS", "MAR", "HLT",
    "RCL", "CCL", "CMG", "DASH", "DRI", "LVS", "MGM", "WYNN", "SIX", "SEAS", "LYV", "MTCH",
    "EXPE", "ITA", "GE", "RTX", "BA", "LHX", "LMT", "HWM", "NOC", "AXON", "TDG", "GD",
    "HII", "LDOS", "SAIC", "HEI", "TXT", "CW", "SPR", "ERJ", "ITB", "NVR", "PHM", "TOL",
    "OC", "BLD", "MHO", "TMHC", "KBH", "MDC", "MTH", "CCS", "GRBK", "MAS", "DOOR", "IYT",
    "UNP", "UPS", "FDX", "ODFL", "CSX", "NSC", "R", "LUV", "DAL", "UAL", "JBHT", "EXPD",
    "XPO", "KNX", "SAIA", "WERN", "LSTR", "SNDR", "CHRW", "IYZ", "CMCSA", "T", "VZ", "TMUS",
    "AMT", "CCI", "EQIX", "SBAC", "CHTR", "LUMN", "DISH", "USM", "GSAT", "IRDM", "LBRDA", "CABO",
    "SATS", "WULF", "BITF", "HIVE", "CAN", "GREE", "BKKT", "FSM", "AG", "MP", "UUUU", "LAC",
    "SVM", "ZEUS", "RKLB", "LUNR", "KTOS", "ASTS", "RDW", "GILT", "MRCY", "SPCE", "MNTS", "LLAP",
    "ET", "PAA", "WES", "NOG", "VET", "ERF", "SD", "REI", "HUN", "TROX", "CC", "KRO",
    "MTX", "CBT", "GEVO", "KALU", "RYAM", "IOSP", "SOFI", "LC", "NU", "KEY", "RF", "HBAN",
    "ZION", "CMA", "FHN", "OVV", "CNX", "RRC", "CPE", "TELL", "RIG", "PTEN", "BGS", "HAIN",
    "THS", "UNFI", "SPTN", "SMPL", "FARM", "JBSS", "NOMD", "BEAM", "CRSP", "NTLA", "EDIT", "ARWR",
    "RCKT", "QURE", "AEO", "EXPR", "TLYS", "ZUMZ", "CATO", "SBH", "CTRN", "SCVL", "HIBB", "LCID",
    "RIVN", "LAZR", "GOEV", "NKLA", "WKHS", "PRTS", "NIU", "FUV", "SOLO", "GOGO", "VSAT", "COMM",
    "CASA", "VIAV", "ZIM", "GXO", "HTLD", "MRTN", "ARCB", "ULH", "CVLG", "HIMS", "TDOC", "DOCS",
    "GDRX", "OSCR", "CLOV", "PGNY", "PHR", "ACCD", "TALK", "WOLF", "QRVO", "DIOD", "CRUS", "AMBA",
    "AOSL", "NVTS", "SIMO", "RDWR", "OSPN", "PING", "IDCC", "VRY", "OUST", "INVZ", "AEVA", "PRCT",
    "DKNG", "PENN", "RRR", "GDEN", "BALY", "AGS", "EVRI", "RSI", "SRAD", "GAN", "TAL", "GOTU",
    "YMM", "QFIN", "FINV", "BZH", "HOV", "SKY", "DFH", "TPH", "LEGH", "UHG", "BMBL", "YELP",
    "ANGI", "CARG", "CARS", "FVRR", "UPWK", "U", "ZI", "FROG", "DOCN", "ZEN", "DOCU", "ESTC",
    "MDB", "A", "AAPL", "ACN", "ADP", "ADSK", "AFRM", "AJG", "ALAB", "ALGN", "ALL", "ALLE",
    "AME", "AMKR", "AMP", "ANET", "APLD", "APO", "APP", "ARES", "ARM", "ASND", "AVAV", "AVB",
    "AVY", "BAH", "BBIO", "BDX", "BLDR", "BNTX", "BR", "BURL", "BWXT", "BX", "CAH", "CAT",
    "CBOE", "CBRE", "CCJ", "CDW", "CEG", "CIEN", "CLH", "CLS", "CMI", "COF", "COHR", "COKE",
    "COR", "CPAY", "CRCL", "CRDO", "CRH", "CRL", "CRS", "CRWV", "CTAS", "DE", "DELL", "DG",
    "DGX", "DLR", "DLTR", "DOV", "DPZ", "EFX", "EL", "EMR", "ENTG", "EPAM", "ESS", "ETN",
    "EXE", "EXR", "FDS", "FERG", "FIGR", "FIX", "FLUT", "FN", "FTAI", "FUTU", "GEV", "GH",
    "GLW", "GNRC", "GOOG", "GWRE", "H", "HCA", "HUBB", "HUM", "ICLR", "IDXX", "IEX", "ILMN",
    "INSM", "IONQ", "IQV", "IREN", "IT", "ITT", "ITW", "J", "JAZZ", "JBL", "JKHY", "KEYS",
    "KKR", "KRMN", "LH", "LITE", "LNG", "LPLA", "LSCC", "LULU", "MCK", "MCO", "MELI", "MKSI",
    "MMM", "MOH", "MRSH", "MSCI", "MSI", "MTB", "MTZ", "NBIS", "NBIX", "NET", "NRG", "NTAP",
    "NTRA", "NTRS", "NVT", "OKLO", "ONTO", "PEN", "PH", "PKG", "PNC", "PNFP", "PODD", "PSA",
    "PSTG", "PTC", "PWR", "Q", "RACE", "RBLX", "RDDT", "RJF", "RL", "RMBS", "RMD", "ROKU",
    "ROP", "RRX", "RVTY", "SAP", "SCCO", "SE", "SF", "SNDK", "SNOW", "SNX", "SPG", "SPXC",
    "STE", "STRL", "STT", "STX", "STZ", "TEL", "TEM", "THC", "TKO", "TLN", "TPR", "TSEM",
    "TT", "TTWO", "TWLO", "TXRH", "UHS", "URI", "VRSK", "VRSN", "VRT", "VST", "WAB", "WAT",
    "WCC", "WDC", "WELL", "WLK", "WM", "WMS", "WSM", "WST", "WTW", "WWD", "ZBRA"
  ]

/-- `BREADTH_UNIVERSE` after line 94 (`sorted(list(set(...)))`): duplicates
removed; only membership and size are ever relevant, so the sort order is not
modelled. -/
def BREADTH_UNIVERSE : List String := rawBreadthUniverse.dedup

/-- A per-symbol entry of a grouped-daily response: either the
`{open, close, high, low, volume}` dict built by `get_grouped_daily`, or a
bare close price (the `isinstance` branch of `calculate_daily_movers`). -/
structure GBar where
  o : ℚ
  c : ℚ
  h : ℚ
  l : ℚ
  v : ℚ

inductive GVal where
  | bar (b : GBar)
  | price (p : ℚ)

/-- `daily_data[symbol].get("close", 0) if isinstance(..., dict) else
daily_data[symbol]`. -/
def GVal.closeOf : GVal → ℚ
  | .bar b => b.c
  | .price p => p

/-- `calculate_daily_movers(daily_data, prev_daily_data, universe)`. -/
def calculate_daily_movers (daily prev : List (String × GVal)) (univ : List String) :
    Nat × Nat :=
  univ.foldl
    (fun acc symbol =>
      match daily.lookup symbol, prev.lookup symbol with
      | some cur, some pv =>
        let current_close := cur.closeOf
        let prev_close := pv.closeOf
        if current_close > 0 ∧ prev_close > 0 then
          let change_pct := (current_close - prev_close) / prev_close * 100
          if change_pct ≥ 4 then (acc.1 + 1, acc.2)
          else if change_pct ≤ -4 then (acc.1, acc.2 + 1)
          else acc
        else acc
      | _, _ => acc)
    (0, 0)

/-- The `daily_counts` loop of `calculate_rolling_ratios` (lines 230-244).
`dates` is the `get_trading_dates(12)` result (most recent first) and `fetch`
the per-date `get_grouped_daily` responses; the `break` fires at the first
`i` with `i + 1 >= len(dates)` and a day is kept only when both days'
fetches are non-empty dicts. -/
def rollingDailyCounts (univ : List String) (dates : List String)
    (fetch : String → List (String × GVal)) : List (Nat × Nat) :=
  (List.range (min 10 (dates.length - 1))).filterMap fun i =>
    let current_data := fetch (dates.getD i "")
    let prev_data := fetch (dates.getD (i + 1) "")
    if !current_data.isEmpty && !prev_data.isEmpty then
      some (calculate_daily_movers current_data prev_data univ)
    else none

/-- `calculate_rolling_ratios(universe)` (lines 217-266), with the network
reads (`get_trading_dates`, `get_grouped_daily`) as inputs.  Returns
`(ratio_5day, ratio_10day)`. -/
def calculate_rolling_ratios (univ : List String) (dates : List String)
    (fetch : String → List (String × GVal)) : Option ℚ × Option ℚ :=
  let daily_counts := rollingDailyCounts univ dates fetch
  let ratio_5day : Option ℚ :=
    if daily_counts.length ≥ 5 then
      let total_up_5 := ((daily_counts.take 5).map Prod.fst).sum
      let total_down_5 := ((daily_counts.take 5).map Prod.snd).sum
      if total_down_5 > 0 then some (round2 ((total_up_5 : ℚ) / (total_down_5 : ℚ)))
      else if total_up_5 > 0 then some (9999 / 100)
      else none
    else none
  let ratio_10day : Option ℚ :=
    if daily_counts.length ≥ 10 then
      let total_up_10 := ((daily_counts.take 10).map Prod.fst).sum
      let total_down_10 := ((daily_counts.take 10).map Prod.snd).sum
      if total_down_10 > 0 then some (round2 ((total_up_10 : ℚ) / (total_down_10 : ℚ)))
      else if total_up_10 > 0 then some (9999 / 100)
      else none
    else none
  (ratio_5day, ratio_10day)

/-- One entry of the snapshot dict fetched by `fetch_current_snapshots`: the
fields `calculate_breadth_indicators` reads, each optional (absent dict keys
are `none`). -/
structure Snapshot where
  dayC : Option ℚ
  lastTradeP : Option ℚ
  minC : Option ℚ
  prevDayC : Option ℚ
  todaysChange : Option ℚ
  todaysChangePerc : Option ℚ

/-- Python `x or y` on an optional number: `None`, `0` and `0.0` are falsy. -/
def pyOrQ (x : Option ℚ) (y : ℚ) : ℚ :=
  match x with
  | some v => if v ≠ 0 then v else y
  | none => y

/-- `current_price` chain (lines 377-382):
`last_trade.get("p") or day.get("c") or snap.get("min", {}).get("c") or 0`. -/
def Snapshot.currentPrice (s : Snapshot) : ℚ :=
  pyOrQ s.lastTradeP (pyOrQ s.dayC (pyOrQ s.minC 0))

/-- `change_pct` (lines 391-393). -/
def Snapshot.changePct (s : Snapshot) : ℚ :=
  let change_pct := s.todaysChangePerc.getD 0
  let prev_close := s.prevDayC.getD 0
  if change_pct = 0 ∧ prev_close > 0 then
    (s.currentPrice - prev_close) / prev_close * 100
  else change_pct

/-- Mutable loop state of `calculate_breadth_indicators`. -/
structure BreadthAcc where
  up4Today : Nat := 0
  down4Today : Nat := 0
  up25Quarter : Nat := 0
  down25Quarter : Nat := 0
  up25Month : Nat := 0
  down25Month : Nat := 0
  up50Month : Nat := 0
  down50Month : Nat := 0
  up13Days34 : Nat := 0
  down13Days34 : Nat := 0
  spyValue : ℚ := 0
  spyChange : ℚ := 0
  spyChangePct : ℚ := 0

/-- Lines 402-406: the daily ±4% bucket. -/
def up4Block (change_pct : ℚ) (acc : BreadthAcc) : BreadthAcc :=
  if change_pct ≥ 4 then { acc with up4Today := acc.up4Today + 1 }
  else if change_pct ≤ -4 then { acc with down4Today := acc.down4Today + 1 }
  else acc

/-- Lines 408-415: the ±25% quarter bucket. -/
def quarterBlock (current_price hist_price_63 : ℚ) (acc : BreadthAcc) : BreadthAcc :=
  if hist_price_63 > 0 then
    let quarter_change := (current_price - hist_price_63) / hist_price_63 * 100
    if quarter_change ≥ 25 then { acc with up25Quarter := acc.up25Quarter + 1 }
    else if quarter_change ≤ -25 then { acc with down25Quarter := acc.down25Quarter + 1 }
    else acc
  else acc

/-- Lines 417-428: the ±25% and ±50% month buckets. -/
def monthBlock (current_price hist_price_21 : ℚ) (acc : BreadthAcc) : BreadthAcc :=
  if hist_price_21 > 0 then
    let month_change := (current_price - hist_price_21) / hist_price_21 * 100
    let acc :=
      if month_change ≥ 25 then { acc with up25Month := acc.up25Month + 1 }
      else if month_change ≤ -25 then { acc with down25Month := acc.down25Month + 1 }
      else acc
    if month_change ≥ 50 then { acc with up50Month := acc.up50Month + 1 }
    else if month_change ≤ -50 then { acc with down50Month := acc.down50Month + 1 }
    else acc
  else acc

/-- Lines 430-437: the ±13% 34-day bucket. -/
def d34Block (current_price hist_price_34 : ℚ) (acc : BreadthAcc) : BreadthAcc :=
  if hist_price_34 > 0 then
    let change_34 := (current_price - hist_price_34) / hist_price_34 * 100
    if change_34 ≥ 13 then { acc with up13Days34 := acc.up13Days34 + 1 }
    else if change_34 ≤ -13 then { acc with down13Days34 := acc.down13Days34 + 1 }
    else acc
  else acc

/-- One iteration of the `for symbol, snap in snapshots.items():` loop
(lines 371-437): skip price-less symbols, route SPY to the market fields
only, and run the four independent bucket blocks in source order for
everything else. -/
def breadthStep (hist21 hist34 hist63 : String → ℚ) (acc : BreadthAcc)
    (entry : String × Snapshot) : BreadthAcc :=
  let symbol := entry.1
  let snap := entry.2
  let current_price := snap.currentPrice
  if current_price ≤ 0 then acc
  else
    let change_pct := snap.changePct
    if symbol = "SPY" then
      { acc with
        spyValue := current_price
        spyChange := snap.todaysChange.getD 0
        spyChangePct := change_pct }
    else
      d34Block current_price (hist34 symbol)
        (monthBlock current_price (hist21 symbol)
          (quarterBlock current_price (hist63 symbol)
            (up4Block change_pct acc)))

/-- The dict returned by `calculate_breadth_indicators` (lines 439-462). -/
structure BreadthIndicators where
  up4PlusToday : Nat
  down4PlusToday : Nat
  ratio5Day : Option ℚ
  ratio10Day : Option ℚ
  up25PlusQuarter : Nat
  down25PlusQuarter : Nat
  up25PlusMonth : Nat
  down25PlusMonth : Nat
  up50PlusMonth : Nat
  down50PlusMonth : Nat
  up13Plus34Days : Nat
  down13Plus34Days : Nat
  spyValue : ℚ
  spyChange : ℚ
  spyChangePercent : ℚ
  t2108 : Option ℚ

/-- `calculate_breadth_indicators(snapshots, hist_21, hist_34, hist_63,
ratio_5day, ratio_10day, t2108)`; `snapshots` is the dict as an association
list in iteration order, the `hist_*` maps are `dict.get(symbol, 0)`
functions. -/
def calculate_breadth_indicators (snapshots : List (String × Snapshot))
    (hist21 hist34 hist63 : String → ℚ) (ratio5 ratio10 : Option ℚ)
    (t2108 : Option ℚ) : BreadthIndicators :=
  let acc := snapshots.foldl (breadthStep hist21 hist34 hist63) {}
  { up4PlusToday := acc.up4Today
    down4PlusToday := acc.down4Today
    ratio5Day := ratio5
    ratio10Day := ratio10
    up25PlusQuarter := acc.up25Quarter
    down25PlusQuarter := acc.down25Quarter
    up25PlusMonth := acc.up25Month
    down25PlusMonth := acc.down25Month
    up50PlusMonth := acc.up50Month
    down50PlusMonth := acc.down50Month
    up13Plus34Days := acc.up13Days34
    down13Plus34Days := acc.down13Days34
    spyValue := round2 acc.spyValue
    spyChange := round2 acc.spyChange
    spyChangePercent := round2 acc.spyChangePct
    t2108 := t2108 }

/-! ## Auxiliary definitions used by the statements below -/

/-- Hand-verified NYSE/NASDAQ closures of 2025 (special closure of Jan 9 for
the Carter day of mourning, then the ten holidays: New Year's, MLK Day,
Presidents' Day, Good Friday, Memorial Day, Juneteenth, Independence Day,
Labor Day, Thanksgiving, Christmas). -/
def handClosures2025 : List PyDate :=
  [⟨2025, 1, 9⟩,
   ⟨2025, 1, 1⟩, ⟨2025, 1, 20⟩, ⟨2025, 2, 17⟩, ⟨2025, 4, 18⟩, ⟨2025, 5, 26⟩,
   ⟨2025, 6, 19⟩, ⟨2025, 7, 4⟩, ⟨2025, 9, 1⟩, ⟨2025, 11, 27⟩, ⟨2025, 12, 25⟩]

/-- Hand-verified NYSE/NASDAQ holidays of 2026 (Independence Day falls on a
Saturday, observed Friday July 3). -/
def handClosures2026 : List PyDate :=
  [⟨2026, 1, 1⟩, ⟨2026, 1, 19⟩, ⟨2026, 2, 16⟩, ⟨2026, 4, 3⟩, ⟨2026, 5, 25⟩,
   ⟨2026, 6, 19⟩, ⟨2026, 7, 3⟩, ⟨2026, 9, 7⟩, ⟨2026, 11, 26⟩, ⟨2026, 12, 25⟩]

/-- Hand-verified NYSE/NASDAQ holidays of 2027 (Juneteenth Saturday observed
Friday June 18, Independence Day Sunday observed Monday July 5, Christmas
Saturday observed Friday December 24). -/
def handClosures2027 : List PyDate :=
  [⟨2027, 1, 1⟩, ⟨2027, 1, 18⟩, ⟨2027, 2, 15⟩, ⟨2027, 3, 26⟩, ⟨2027, 5, 31⟩,
   ⟨2027, 6, 18⟩, ⟨2027, 7, 5⟩, ⟨2027, 9, 6⟩, ⟨2027, 11, 25⟩, ⟨2027, 12, 24⟩]

/-- The closure table for the years 2025-2027. -/
def handClosures (y : Nat) : List PyDate :=
  if y = 2025 then handClosures2025
  else if y = 2026 then handClosures2026
  else if y = 2027 then handClosures2027
  else []

/-- Well-formedness of a `{series}:history:dates` index as maintained by
`save_daily_snapshot`: scores strictly descending (so members are distinct
dates), every member a parseable date scored by its own timestamp. -/
def ZIdxWf (l : List (String × Int)) : Prop :=
  l.Pairwise (fun a b => b.2 < a.2) ∧
  ∀ p ∈ l, ∃ d, strptimeYMD p.1 = some d ∧ p.2 = dateToTs d

/-- Membership tests for the mover buckets of `calculate_breadth_indicators`:
`hitsUp4 e` holds when the entry increments `up_4_today`, and so on.  SPY and
price-less entries never satisfy any of them. -/
def hitsUp4 (e : String × Snapshot) : Bool :=
  decide (e.1 ≠ "SPY" ∧ e.2.currentPrice > 0 ∧ e.2.changePct ≥ 4)

def hitsDown4 (e : String × Snapshot) : Bool :=
  decide (e.1 ≠ "SPY" ∧ e.2.currentPrice > 0 ∧
    ¬ e.2.changePct ≥ 4 ∧ e.2.changePct ≤ -4)

def hitsUp25Q (hist63 : String → ℚ) (e : String × Snapshot) : Bool :=
  decide (e.1 ≠ "SPY" ∧ e.2.currentPrice > 0 ∧ hist63 e.1 > 0 ∧
    (e.2.currentPrice - hist63 e.1) / hist63 e.1 * 100 ≥ 25)

def hitsDown25Q (hist63 : String → ℚ) (e : String × Snapshot) : Bool :=
  decide (e.1 ≠ "SPY" ∧ e.2.currentPrice > 0 ∧ hist63 e.1 > 0 ∧
    ¬ (e.2.currentPrice - hist63 e.1) / hist63 e.1 * 100 ≥ 25 ∧
    (e.2.currentPrice - hist63 e.1) / hist63 e.1 * 100 ≤ -25)

def hitsUp25M (hist21 : String → ℚ) (e : String × Snapshot) : Bool :=
  decide (e.1 ≠ "SPY" ∧ e.2.currentPrice > 0 ∧ hist21 e.1 > 0 ∧
    (e.2.currentPrice - hist21 e.1) / hist21 e.1 * 100 ≥ 25)

def hitsDown25M (hist21 : String → ℚ) (e : String × Snapshot) : Bool :=
  decide (e.1 ≠ "SPY" ∧ e.2.currentPrice > 0 ∧ hist21 e.1 > 0 ∧
    ¬ (e.2.currentPrice - hist21 e.1) / hist21 e.1 * 100 ≥ 25 ∧
    (e.2.currentPrice - hist21 e.1) / hist21 e.1 * 100 ≤ -25)

def hitsUp50M (hist21 : String → ℚ) (e : String × Snapshot) : Bool :=
  decide (e.1 ≠ "SPY" ∧ e.2.currentPrice > 0 ∧ hist21 e.1 > 0 ∧
    (e.2.currentPrice - hist21 e.1) / hist21 e.1 * 100 ≥ 50)

def hitsDown50M (hist21 : String → ℚ) (e : String × Snapshot) : Bool :=
  decide (e.1 ≠ "SPY" ∧ e.2.currentPrice > 0 ∧ hist21 e.1 > 0 ∧
    ¬ (e.2.currentPrice - hist21 e.1) / hist21 e.1 * 100 ≥ 50 ∧
    (e.2.currentPrice - hist21 e.1) / hist21 e.1 * 100 ≤ -50)

def hitsUp13 (hist34 : String → ℚ) (e : String × Snapshot) : Bool :=
  decide (e.1 ≠ "SPY" ∧ e.2.currentPrice > 0 ∧ hist34 e.1 > 0 ∧
    (e.2.currentPrice - hist34 e.1) / hist34 e.1 * 100 ≥ 13)

def hitsDown13 (hist34 : String → ℚ) (e : String × Snapshot) : Bool :=
  decide (e.1 ≠ "SPY" ∧ e.2.currentPrice > 0 ∧ hist34 e.1 > 0 ∧
    ¬ (e.2.currentPrice - hist34 e.1) / hist34 e.1 * 100 ≥ 13 ∧
    (e.2.currentPrice - hist34 e.1) / hist34 e.1 * 100 ≤ -13)

/-! ## Development lemmas -/

lemma lookup_setField_self {α : Type} (l : List (String × α)) (k : String) (v : α) :
    (setField l k v).lookup k = some v := by
  induction l with
  | nil => simp [setField, List.lookup]
  | cons p rest ih =>
    by_cases h : p.1 = k
    · simp [setField, h, List.lookup]
    · simp only [setField, if_neg h]
      rw [show (p.1, p.2) = p from rfl]
      cases p with
      | mk k' v' =>
        simp only [List.lookup]
        have : (k == k') = false := by
          simp only [beq_eq_false_iff_ne]
          exact fun hk => h hk.symm
        simp [this, ih]

lemma lookup_setField_ne {α : Type} (l : List (String × α)) (k k' : String) (v : α)
    (h : k' ≠ k) : (setField l k v).lookup k' = l.lookup k' :=
  by
  induction l with
  | nil => simp [setField, List.lookup, beq_eq_false_iff_ne.mpr h]
  | cons p rest ih =>
    by_cases hp : p.1 = k
    · cases p with
      | mk a b =>
        simp only [setField]
        rw [if_pos hp]
        simp only [List.lookup, beq_eq_false_iff_ne.mpr h]
        subst hp
        simp [beq_eq_false_iff_ne.mpr h]
    · cases p with
      | mk a b =>
        simp only [setField]
        rw [if_neg hp]
        simp only [List.lookup]
        cases hab : (k' == a) <;> simp [ih]

lemma holidays2025_eq : get_market_holidays 2025 = .ok handClosures2025.tail := rfl

lemma holidays2026_eq : get_market_holidays 2026 = .ok handClosures2026 := rfl

lemma holidays2027_eq : get_market_holidays 2027 = .ok handClosures2027 := rfl

lemma marketOpenOn_ok_of_holidays (d : PyDate) (L : List PyDate)
    (hL : get_market_holidays d.year = .ok L) :
    (∃ b, marketOpenOn d = .ok b) ∧ (∃ r, closureReasonOn d = .ok r) := by
  constructor
  · unfold marketOpenOn
    split_ifs with h1 h2
    · exact ⟨_, rfl⟩
    · exact ⟨_, rfl⟩
    · rw [hL]; exact ⟨_, rfl⟩
  · unfold closureReasonOn
    split_ifs with h1 h2 h3
    · exact ⟨_, rfl⟩
    · exact ⟨_, rfl⟩
    · exact ⟨_, rfl⟩
    · rw [hL]; exact ⟨_, rfl⟩

/-! ## Claim theorems -/

/-- C9: whenever the Redis client is absent (`get_redis_client()` returned
`None`) or every backend call raises, each Cache Store operation returns its
degraded value — `get_cached` returns `None`, `set_cached` returns `False`,
`save_daily_snapshot` returns `False`, `get_history` returns `[]`,
`should_save_daily_snapshot` returns `False` — and the cache state is left
unchanged; no exception propagates to the caller. -/
theorem cache_ops_degrade_without_backend
    (st : RState) (h : st.failing = true) (key key_pfx : String) (data : Json)
    (ttl days : Int) (now : Clock) (dateArg : Option String) :
    get_cached false st key = none ∧
    set_cached false st key data ttl = (false, st) ∧
    save_daily_snapshot false st now key_pfx data dateArg = (false, st) ∧
    get_history false st key_pfx days = [] ∧
    should_save_daily_snapshot false st now key_pfx = false ∧
    get_cached true st key = none ∧
    set_cached true st key data ttl = (false, st) ∧
    save_daily_snapshot true st now key_pfx data dateArg = (false, st) ∧
    get_history true st key_pfx days = [] ∧
    should_save_daily_snapshot true st now key_pfx = false := by
  refine ⟨rfl, rfl, rfl, rfl, rfl, ?_, ?_, ?_, ?_, ?_⟩
  · simp [get_cached, rGet, h]
  · simp [set_cached, rSetex, h]
  · simp [save_daily_snapshot, rSet, h]
  · simp [get_history, rZrevrange, h]
  · simp [should_save_daily_snapshot, rExists, h]

/-- Witness for C9 at a concrete failing backend state. -/
theorem cache_ops_degrade_without_backend_witness :
    (RState.mk true [("k", Json.null)] []).failing = true ∧
    get_cached true ⟨true, [("k", Json.null)], []⟩ "k" = none ∧
    get_history true ⟨true, [("k", Json.null)], []⟩ "breadth:daily" 5 = [] := by
  have h := cache_ops_degrade_without_backend ⟨true, [("k", Json.null)], []⟩ rfl
    "k" "breadth:daily" Json.null 60 5 ⟨"2026-02-06", 0⟩ none
  exact ⟨rfl, h.2.2.2.2.2.1, h.2.2.2.2.2.2.2.2.1⟩

/-- C5: every ratio over counts follows the asymmetric tie-break — with a zero
down-count and zero up-count the ratio is `None`; with a zero down-count and a
positive up-count it is the sentinel `99.99`; with a positive down-count it is
the up-count over the down-count rounded to two decimals.  Stated for the
5-day and 10-day rolling up/down ratios of `calculate_rolling_ratios` (over a
complete 10-day window) and for the 52-week high/low and RSI ratios of the
`breadth-daily` endpoint. -/
theorem ratio_tie_break (univ dates : List String)
    (fetch : String → List (String × GVal)) (r : FinvizCounts)
    (hlen : 10 ≤ (rollingDailyCounts univ dates fetch).length) :
    ((calculate_rolling_ratios univ dates fetch).1 =
      (if 0 < (((rollingDailyCounts univ dates fetch).take 5).map Prod.snd).sum then
        some (round2 ((((((rollingDailyCounts univ dates fetch).take 5).map Prod.fst).sum : Nat) : ℚ) /
          (((((rollingDailyCounts univ dates fetch).take 5).map Prod.snd).sum : Nat) : ℚ)))
      else if 0 < (((rollingDailyCounts univ dates fetch).take 5).map Prod.fst).sum then
        some (9999 / 100)
      else none)) ∧
    ((calculate_rolling_ratios univ dates fetch).2 =
      (if 0 < (((rollingDailyCounts univ dates fetch).take 10).map Prod.snd).sum then
        some (round2 ((((((rollingDailyCounts univ dates fetch).take 10).map Prod.fst).sum : Nat) : ℚ) /
          (((((rollingDailyCounts univ dates fetch).take 10).map Prod.snd).sum : Nat) : ℚ)))
      else if 0 < (((rollingDailyCounts univ dates fetch).take 10).map Prod.fst).sum then
        some (9999 / 100)
      else none)) ∧
    (highLowRatioOf r =
      (if 0 < r.new52WeekLow then
        some (round2 ((r.new52WeekHigh : ℚ) / (r.new52WeekLow : ℚ)))
      else if 0 < r.new52WeekHigh then some (9999 / 100)
      else none)) ∧
    (rsiRatioOf r =
      (if 0 < r.rsiBelow30 then
        some (round2 ((r.rsiAbove70 : ℚ) / (r.rsiBelow30 : ℚ)))
      else if 0 < r.rsiAbove70 then some (9999 / 100)
      else none)) := by
  refine ⟨?_, ?_, rfl, rfl⟩
  · simp only [calculate_rolling_ratios]
    rw [if_pos (by omega : (rollingDailyCounts univ dates fetch).length ≥ 5)]
  · simp only [calculate_rolling_ratios]
    rw [if_pos (by omega : (rollingDailyCounts univ dates fetch).length ≥ 10)]

/-- Witness for C5: a complete 10-day window of all-zero counts yields a
`None` 5-day ratio, and `computeRatio(10, 5) = 2.0`. -/
theorem ratio_tie_break_witness :
    10 ≤ (rollingDailyCounts ["A"]
        ["d0", "d1", "d2", "d3", "d4", "d5", "d6", "d7", "d8", "d9", "d10"]
        (fun _ => [("A", GVal.price 1)])).length ∧
    highLowRatioOf ⟨10, 5, 0, 0, 0, 0, 0, 0, 0, 0, 0, 0⟩ = some 2 := by
  have hlen : 10 ≤ (rollingDailyCounts ["A"]
      ["d0", "d1", "d2", "d3", "d4", "d5", "d6", "d7", "d8", "d9", "d10"]
      (fun _ => [("A", GVal.price 1)])).length := by decide
  refine ⟨hlen, ?_⟩
  exact ((ratio_tie_break ["A"]
    ["d0", "d1", "d2", "d3", "d4", "d5", "d6", "d7", "d8", "d9", "d10"]
    (fun _ => [("A", GVal.price 1)])
    ⟨10, 5, 0, 0, 0, 0, 0, 0, 0, 0, 0, 0⟩ hlen).2.2.1).trans
    (by norm_num [round2, roundHalfEven])

/-- C4 (counterexample): `is_market_open` and `get_closure_reason` raise
`ValueError` on well-formed `YYYY-MM-DD` strings of some years — any weekday
of 2029 (Easter falls on April 1, so `_good_friday` computes
`replace(day=-1)`) and any weekday of 2028 (New Year's Day falls on a
Saturday, so `_observed` computes `replace(day=0)`). -/
theorem calendar_valueerror_on_wellformed_date :
    strptimeYMD "2029-01-02" = some ⟨2029, 1, 2⟩ ∧
    is_market_open "2029-01-02" = .error "ValueError: day is out of range for month" ∧
    get_closure_reason "2029-01-02" = .error "ValueError: day is out of range for month" ∧
    strptimeYMD "2028-01-03" = some ⟨2028, 1, 3⟩ ∧
    is_market_open "2028-01-03" = .error "ValueError: day is out of range for month" :=
  ⟨rfl, rfl, rfl, rfl, rfl⟩

/-- C4 (amended): for every well-formed `YYYY-MM-DD` string whose year's
holiday computation does not underflow — in particular every date of
2025-2027 — `is_market_open` and `get_closure_reason` return normally; the
claim's "any year" fails because years where New Year's Day falls on a
Saturday or Easter falls on April 1-2 raise `ValueError` on well-formed
input (see the counterexample). -/
theorem calendar_total_on_2025_2027 (s : String) (d : PyDate)
    (hp : strptimeYMD s = some d)
    (hy : d.year = 2025 ∨ d.year = 2026 ∨ d.year = 2027) :
    (∃ b, is_market_open s = .ok b) ∧ (∃ r, get_closure_reason s = .ok r) := by
  have hL : ∃ L, get_market_holidays d.year = .ok L := by
    rcases hy with h | h | h <;> rw [h]
    · exact ⟨_, holidays2025_eq⟩
    · exact ⟨_, holidays2026_eq⟩
    · exact ⟨_, holidays2027_eq⟩
  obtain ⟨L, hL⟩ := hL
  have := marketOpenOn_ok_of_holidays d L hL
  simpa only [is_market_open, get_closure_reason, hp] using this

/-- Witness for C4 (amended) at the concrete open day 2025-06-20. -/
theorem calendar_total_on_2025_2027_witness :
    (∃ b, is_market_open "2025-06-20" = .ok b) ∧
    (∃ r, get_closure_reason "2025-06-20" = .ok r) :=
  calendar_total_on_2025_2027 "2025-06-20" ⟨2025, 6, 20⟩ rfl (Or.inl rfl)

/-- C6: the calendar returns closed for every Saturday and Sunday (any year),
and on the years 2025-2027 it matches the hand-verified closure tables
`handClosures2025`-`handClosures2027` (ten holidays per year with the
Saturday-to-Friday / Sunday-to-Monday observation shifts, plus the 2025-01-09
special closure): a date of those years is open exactly when it is a weekday
not in the table. -/
theorem calendar_weekend_and_holiday_table (d : PyDate) :
    (5 ≤ d.weekday → marketOpenOn d = .ok false) ∧
    ((d.year = 2025 ∨ d.year = 2026 ∨ d.year = 2027) →
      marketOpenOn d = .ok (decide (d.weekday < 5) && !((handClosures d.year).contains d))) := by
  constructor
  · intro h5
    unfold marketOpenOn
    rw [if_pos h5]
  · intro hy
    by_cases h5 : 5 ≤ d.weekday
    · have h1 : marketOpenOn d = .ok false := by unfold marketOpenOn; rw [if_pos h5]
      have h2 : decide (d.weekday < 5) = false := by simp; omega
      rw [h1, h2, Bool.false_and]
    · have hw : decide (d.weekday < 5) = true := by simp; omega
      unfold marketOpenOn
      rw [if_neg h5, hw, Bool.true_and]
      by_cases hsp : specialClosures.contains d
      · rw [if_pos hsp]
        have hd : d = ⟨2025, 1, 9⟩ := by
          simpa [specialClosures] using hsp
        subst hd
        rfl
      · rw [if_neg hsp]
        have hbeq : (d == (⟨2025, 1, 9⟩ : PyDate)) = false := by
          simp only [specialClosures] at hsp
          simpa using hsp
        rcases hy with h | h | h <;> rw [h]
        · rw [holidays2025_eq]
          show Except.ok (!handClosures2025.tail.contains d) =
            Except.ok (!(handClosures 2025).contains d)
          rw [show handClosures 2025 = handClosures2025 from rfl,
            show handClosures2025 = ⟨2025, 1, 9⟩ :: handClosures2025.tail from rfl,
            List.contains_cons, hbeq, Bool.false_or]
          rfl
        · rw [holidays2026_eq]
          rfl
        · rw [holidays2027_eq]
          rfl

/-- Witness for C6: 2025-02-08 is a Saturday and closed; Good Friday
2025-04-18 (computed via the Easter algorithm) is closed; the regular weekday
2025-06-20 is open. -/
theorem calendar_weekend_and_holiday_table_witness :
    marketOpenOn ⟨2025, 2, 8⟩ = .ok false ∧
    marketOpenOn ⟨2025, 4, 18⟩ = .ok false ∧
    marketOpenOn ⟨2025, 6, 20⟩ = .ok true := by
  refine ⟨(calendar_weekend_and_holiday_table ⟨2025, 2, 8⟩).1 (by decide), ?_, ?_⟩
  · have h := (calendar_weekend_and_holiday_table ⟨2025, 4, 18⟩).2 (Or.inl rfl)
    rw [h]; rfl
  · have h := (calendar_weekend_and_holiday_table ⟨2025, 6, 20⟩).2 (Or.inl rfl)
    rw [h]; rfl

/-- If the head's date differs, the NH/NL upsert leaves the head in place and
recurses structurally. -/
lemma nhnlUpsert_cons_of_ne (a : DayEntry) (rest : List DayEntry) (dd : DayEntry)
    (h : (a.date == dd.date) = false) :
    nhnlUpsert (a :: rest) dd = a :: nhnlUpsert rest dd := by
  unfold nhnlUpsert
  rw [List.findIdx?_cons, if_neg (by simp [h]), List.findIdx?_succ]
  cases hfi : List.findIdx? (fun d => d.date == dd.date) rest with
  | none => simp
  | some j => simp [List.set]

/-- In the upserted day list, any entry carrying the target date is the new
`day_data` (the prior entry for that date is gone). -/
lemma nhnlUpsert_unique (days : List DayEntry) (dd : DayEntry)
    (hnd : (days.map DayEntry.date).Nodup) :
    ∀ e ∈ nhnlUpsert days dd, e.date = dd.date → e = dd := by
  induction days with
  | nil =>
    intro e he _
    simpa [nhnlUpsert, List.findIdx?] using he
  | cons a rest ih =>
    intro e he hdate
    by_cases hpa : (a.date == dd.date) = true
    · have hup : nhnlUpsert (a :: rest) dd = dd :: rest := by
        unfold nhnlUpsert
        rw [List.findIdx?_cons, if_pos (by simp_all)]
        rfl
      rw [hup] at he
      rcases List.mem_cons.mp he with h | h
      · exact h
      · exfalso
        have ha : a.date = dd.date := by simpa using hpa
        have h1 : e.date ∈ rest.map DayEntry.date := List.mem_map_of_mem _ h
        rw [hdate, ← ha] at h1
        simp only [List.map_cons, List.nodup_cons] at hnd
        exact hnd.1 h1
    · rw [nhnlUpsert_cons_of_ne a rest dd (by simpa using hpa)] at he
      rcases List.mem_cons.mp he with h | h
      · exfalso
        rw [h] at hdate
        simp [hdate] at hpa
      · simp only [List.map_cons, List.nodup_cons] at hnd
        exact ih hnd.2 e h hdate

/-- C1 (counterexample): there is no non-overwrite guard.  Starting from a
store holding the non-zero entry `{nh: 5, nl: 2}` for 2026-02-06,
`save_daily_snapshot` with all-zero data for the same date returns `True`
and replaces the stored entry with the all-zero one; likewise the
`fix-sector-nhnl` history update replaces the non-zero day entry with the
all-zero `day_data`. -/
theorem allzero_overwrites_nonzero_counterexample :
    (save_daily_snapshot true
        ⟨false,
         [("sector-rotation:history:2026-02-06",
           Json.obj [("nh", Json.num 5), ("nl", Json.num 2)])],
         [("sector-rotation:history:dates", [("2026-02-06", 1770336000)])]⟩
        ⟨"2026-02-06", 1770400000⟩ "sector-rotation"
        (Json.obj [("nh", Json.num 0), ("nl", Json.num 0)]) (some "2026-02-06")).1 = true ∧
    ((save_daily_snapshot true
        ⟨false,
         [("sector-rotation:history:2026-02-06",
           Json.obj [("nh", Json.num 5), ("nl", Json.num 2)])],
         [("sector-rotation:history:dates", [("2026-02-06", 1770336000)])]⟩
        ⟨"2026-02-06", 1770400000⟩ "sector-rotation"
        (Json.obj [("nh", Json.num 0), ("nl", Json.num 0)]) (some "2026-02-06")).2).kv.lookup
      "sector-rotation:history:2026-02-06"
      = some (Json.obj [("nh", Json.num 0), ("nl", Json.num 0)]) ∧
    (RState.mk false
        [("sector-rotation:history:2026-02-06",
          Json.obj [("nh", Json.num 5), ("nl", Json.num 2)])]
        [("sector-rotation:history:dates", [("2026-02-06", 1770336000)])]).kv.lookup
      "sector-rotation:history:2026-02-06"
      = some (Json.obj [("nh", Json.num 5), ("nl", Json.num 2)]) ∧
    updateNhNlDays
        [⟨"2026-02-06", Json.obj [("nh", Json.num 5), ("nl", Json.num 2)]⟩]
        ⟨"2026-02-06", Json.obj [("nh", Json.num 0), ("nl", Json.num 0)]⟩
      = [⟨"2026-02-06", Json.obj [("nh", Json.num 0), ("nl", Json.num 0)]⟩] ∧
    some (Json.obj [("nh", Json.num 0), ("nl", Json.num 0)])
      ≠ some (Json.obj [("nh", Json.num 5), ("nl", Json.num 2)]) := by
  refine ⟨rfl, rfl, rfl, ?_, ?_⟩
  · unfold updateNhNlDays nhnlUpsert sortDaysDesc
    simp [List.findIdx?, List.set, List.mergeSort_singleton]
  · intro h
    simp only [Option.some.injEq, Json.obj.injEq, List.cons.injEq, Prod.mk.injEq,
      Json.num.injEq] at h
    norm_num at h

/-- C1 (amended): rather than skipping the write, both writers overwrite
unconditionally — `save_daily_snapshot` always stores the new data under
`{series}:history:{date}` regardless of what was there, and the
`fix-sector-nhnl` update replaces the existing day entry for the target date
with the new `day_data` (assuming, as the endpoint maintains, one entry per
date). -/
theorem snapshot_writes_overwrite_unconditionally
    (st : RState) (now : Clock) (key_pfx : String) (data : Json) (date : String)
    (hf : st.failing = false)
    (days : List DayEntry) (day_data : DayEntry)
    (hnd : (days.map DayEntry.date).Nodup) :
    ((save_daily_snapshot true st now key_pfx data (some date)).2).kv.lookup
        (key_pfx ++ ":history:" ++ date) = some data ∧
    (∀ e ∈ updateNhNlDays days day_data, e.date = day_data.date → e = day_data) := by
  constructor
  · unfold save_daily_snapshot
    simp only [Bool.not_true, Option.getD_some, rSet, rZadd, rZremRangeToInf, hf]
    cases hd : strptimeYMD date <;>
      simp [lookup_setField_self]
  · intro e he hdate
    have hmem : e ∈ nhnlUpsert days day_data := by
      unfold updateNhNlDays at he
      have h1 := List.take_subset 20 _ he
      exact ((List.mergeSort_perm _ _).mem_iff).mp h1
    exact nhnlUpsert_unique days day_data hnd e hmem hdate

/-- Witness for C1 (amended) at a concrete one-entry store and day list. -/
theorem snapshot_writes_overwrite_unconditionally_witness :
    ((save_daily_snapshot true ⟨false, [("s:history:2026-02-06", Json.num 7)], []⟩
        ⟨"2026-02-06", 1770400000⟩ "s" (Json.num 0) (some "2026-02-06")).2).kv.lookup
      "s:history:2026-02-06" = some (Json.num 0) ∧
    (∀ e ∈ updateNhNlDays [⟨"2026-02-06", Json.num 7⟩] ⟨"2026-02-06", Json.num 0⟩,
      e.date = "2026-02-06" → e = ⟨"2026-02-06", Json.num 0⟩) := by
  have h := snapshot_writes_overwrite_unconditionally
    ⟨false, [("s:history:2026-02-06", Json.num 7)], []⟩
    ⟨"2026-02-06", 1770400000⟩ "s" (Json.num 0) "2026-02-06" rfl
    [⟨"2026-02-06", Json.num 7⟩] ⟨"2026-02-06", Json.num 0⟩ (by simp)
  exact ⟨h.1, h.2⟩

lemma getKey_setKey_ne (j : Json) (k k' : String) (v : Json) (h : k' ≠ k) :
    (j.setKey k v).getKey k' = j.getKey k' := by
  cases j <;> simp [Json.setKey, Json.getKey]
  exact lookup_setField_ne _ k k' v h

lemma bd_hist_key (s : String) :
    ("breadth:daily" ++ ":history:" ++ s) = "breadth:daily:history:" ++ s := rfl

lemma histKey_ne_cache_key (s : String) :
    ("breadth:daily:history:" ++ s) ≠ "breadth:daily" := by
  intro h
  have hlen := congrArg String.length h
  rw [String.length_append] at hlen
  have h1 : String.length "breadth:daily:history:" = 22 := rfl
  have h2 : String.length "breadth:daily" = 13 := rfl
  omega

/-- C2 (counterexample): 2026-02-07 is a Saturday, yet a fresh run of the
`breadth-daily` endpoint on that day writes the daily history entry for it —
`main` never consults `is_market_open`. -/
theorem saturday_snapshot_written_counterexample :
    (((breadth_daily_main true ⟨false, [], []⟩ false 0
        ⟨0, 0, 0, 0, 0, 0, 0, 0, 0, 0, 0, 0⟩ ⟨"2026-02-07", 1770500000⟩).2).kv.lookup
      "breadth:daily:history:2026-02-07").isSome = true ∧
    is_market_open "2026-02-07" = .ok false :=
  ⟨rfl, rfl⟩

/-- C2 (amended): on the fresh path the `breadth-daily` endpoint writes the
daily history entry for today's date exactly when `should_save_daily_snapshot`
says no entry exists yet for that date — the trading calendar is not
consulted, so weekend and holiday dates are recorded like any others (a
separate fix endpoint exists to delete them). -/
theorem breadth_daily_snapshot_gated_only_by_should_save
    (st : RState) (universeCount : Nat) (counts : FinvizCounts) (now : Clock) (bypass : Bool)
    (hf : st.failing = false)
    (hfresh : breadthDailyHit true st bypass = none) :
    should_save_daily_snapshot true st now "breadth:daily" =
      !(st.kv.lookup ("breadth:daily:history:" ++ now.dateStr)).isSome ∧
    ((breadth_daily_main true st bypass universeCount counts now).2).kv.lookup
        ("breadth:daily:history:" ++ now.dateStr) =
      (if (st.kv.lookup ("breadth:daily:history:" ++ now.dateStr)).isSome then
        st.kv.lookup ("breadth:daily:history:" ++ now.dateStr)
      else some (breadthDailyBody universeCount counts now)) := by
  have hshould : should_save_daily_snapshot true st now "breadth:daily" =
      !(st.kv.lookup ("breadth:daily:history:" ++ now.dateStr)).isSome := by
    simp only [should_save_daily_snapshot, rExists, hf, bd_hist_key]
    rfl
  refine ⟨hshould, ?_⟩
  unfold breadth_daily_main
  rw [hfresh]
  dsimp only
  unfold breadthDailyFresh
  dsimp only
  have hset : (set_cached true st "breadth:daily" (breadthDailyBody universeCount counts now)
      3600).2 = { st with kv := (setField st.kv "breadth:daily"
        (breadthDailyBody universeCount counts now)) } := by
    simp [set_cached, rSetex, hf]
  have hs1 : should_save_daily_snapshot true
      { st with kv := (setField st.kv "breadth:daily"
        (breadthDailyBody universeCount counts now)) } now "breadth:daily" =
      !(st.kv.lookup ("breadth:daily:history:" ++ now.dateStr)).isSome := by
    simp only [should_save_daily_snapshot, rExists, hf, bd_hist_key]
    rw [lookup_setField_ne _ _ _ _ (histKey_ne_cache_key now.dateStr)]
    rfl
  rw [hset, hs1]
  cases hiss : (st.kv.lookup ("breadth:daily:history:" ++ now.dateStr)).isSome with
  | true =>
    simp only [Bool.not_true, Bool.false_eq_true, if_false, if_true]
    exact lookup_setField_ne _ _ _ _ (histKey_ne_cache_key now.dateStr)
  | false =>
    simp only [Bool.not_false, Bool.false_eq_true, if_true, if_false]
    unfold save_daily_snapshot
    simp only [Bool.not_true, Option.getD_none, rSet, rZadd, rZremRangeToInf, hf, bd_hist_key]
    cases hd : strptimeYMD now.dateStr <;> simp [bd_hist_key, lookup_setField_self]

/-- Witness for C2 (amended) on a concrete empty store (entry absent, so the
snapshot for 2026-02-07, a Saturday, is written). -/
theorem breadth_daily_snapshot_gate_witness :
    should_save_daily_snapshot true ⟨false, [], []⟩ ⟨"2026-02-07", 1770500000⟩ "breadth:daily" =
      !((RState.mk false [] []).kv.lookup "breadth:daily:history:2026-02-07").isSome ∧
    ((breadth_daily_main true ⟨false, [], []⟩ false 3
        ⟨1, 0, 0, 0, 0, 0, 0, 0, 0, 0, 0, 0⟩ ⟨"2026-02-07", 1770500000⟩).2).kv.lookup
        "breadth:daily:history:2026-02-07" =
      (if ((RState.mk false [] []).kv.lookup "breadth:daily:history:2026-02-07").isSome then
        (RState.mk false [] []).kv.lookup "breadth:daily:history:2026-02-07"
      else some (breadthDailyBody 3 ⟨1, 0, 0, 0, 0, 0, 0, 0, 0, 0, 0, 0⟩
        ⟨"2026-02-07", 1770500000⟩)) :=
  breadth_daily_snapshot_gated_only_by_should_save ⟨false, [], []⟩ 3
    ⟨1, 0, 0, 0, 0, 0, 0, 0, 0, 0, 0, 0⟩ ⟨"2026-02-07", 1770500000⟩ false rfl rfl

/-- C3 (counterexample): the second call is *not* byte-identical to the
first.  On a cache hit the endpoint mutates the decoded dict with
`cached["cached"] = True` before serializing, while the first (fresh)
response carried `"cached": false`; the two JSON bodies differ at that
field. -/
theorem cached_flag_breaks_byte_identity :
    ((breadth_daily_main true
        ((breadth_daily_main true ⟨false, [], []⟩ false 7
          ⟨2, 1, 0, 0, 0, 0, 0, 0, 0, 0, 0, 0⟩ ⟨"2026-02-06", 1770400000⟩).2) false 7
        ⟨2, 1, 0, 0, 0, 0, 0, 0, 0, 0, 0, 0⟩ ⟨"2026-02-06", 1770400000⟩).1).getKey "cached"
      = some (Json.bool true) ∧
    ((breadth_daily_main true ⟨false, [], []⟩ false 7
        ⟨2, 1, 0, 0, 0, 0, 0, 0, 0, 0, 0, 0⟩ ⟨"2026-02-06", 1770400000⟩).1).getKey "cached"
      = some (Json.bool false) ∧
    (breadth_daily_main true
        ((breadth_daily_main true ⟨false, [], []⟩ false 7
          ⟨2, 1, 0, 0, 0, 0, 0, 0, 0, 0, 0, 0⟩ ⟨"2026-02-06", 1770400000⟩).2) false 7
        ⟨2, 1, 0, 0, 0, 0, 0, 0, 0, 0, 0, 0⟩ ⟨"2026-02-06", 1770400000⟩).1
      ≠ (breadth_daily_main true ⟨false, [], []⟩ false 7
        ⟨2, 1, 0, 0, 0, 0, 0, 0, 0, 0, 0, 0⟩ ⟨"2026-02-06", 1770400000⟩).1 := by
  refine ⟨rfl, rfl, ?_⟩
  intro h
  have h1 : ((breadth_daily_main true
      ((breadth_daily_main true ⟨false, [], []⟩ false 7
        ⟨2, 1, 0, 0, 0, 0, 0, 0, 0, 0, 0, 0⟩ ⟨"2026-02-06", 1770400000⟩).2) false 7
      ⟨2, 1, 0, 0, 0, 0, 0, 0, 0, 0, 0, 0⟩ ⟨"2026-02-06", 1770400000⟩).1).getKey "cached"
      = some (Json.bool true) := rfl
  rw [h] at h1
  have h2 : ((breadth_daily_main true ⟨false, [], []⟩ false 7
      ⟨2, 1, 0, 0, 0, 0, 0, 0, 0, 0, 0, 0⟩ ⟨"2026-02-06", 1770400000⟩).1).getKey "cached"
      = some (Json.bool false) := rfl
  rw [h2] at h1
  simp at h1

/-- Fresh-path characterization of the `breadth-daily` endpoint used by the
idempotence analysis: on a cache miss with a healthy backend, the body is the
built response, which is also stored under `breadth:daily`, and the backend
stays healthy. -/
lemma breadth_daily_fresh_state (st : RState) (uc : Nat) (counts : FinvizCounts) (now : Clock)
    (hf : st.failing = false) (hmiss : st.kv.lookup "breadth:daily" = none) :
    (breadth_daily_main true st false uc counts now).1 = breadthDailyBody uc counts now ∧
    ((breadth_daily_main true st false uc counts now).2).kv.lookup "breadth:daily" =
      some (breadthDailyBody uc counts now) ∧
    ((breadth_daily_main true st false uc counts now).2).failing = false := by
  have hhit1 : breadthDailyHit true st false = none := by
    simp [breadthDailyHit, get_cached, rGet, hf, hmiss]
  refine ⟨?_, ?_, ?_⟩
  · unfold breadth_daily_main
    rw [hhit1]
    rfl
  · unfold breadth_daily_main
    rw [hhit1]
    dsimp only
    unfold breadthDailyFresh
    dsimp only
    have hset : (set_cached true st "breadth:daily" (breadthDailyBody uc counts now)
        3600).2 = { st with kv := (setField st.kv "breadth:daily"
          (breadthDailyBody uc counts now)) } := by
      simp [set_cached, rSetex, hf]
    rw [hset]
    cases hs : should_save_daily_snapshot true
        { st with kv := (setField st.kv "breadth:daily" (breadthDailyBody uc counts now)) }
        now "breadth:daily" with
    | false =>
      simp only [Bool.false_eq_true, if_false]
      exact lookup_setField_self st.kv _ _
    | true =>
      simp only [if_true]
      unfold save_daily_snapshot
      simp only [Bool.not_true, Option.getD_none, rSet, rZadd, rZremRangeToInf, hf,
        Bool.false_eq_true, if_false, bd_hist_key]
      cases hd : strptimeYMD now.dateStr <;>
        simp only [hd, Bool.false_eq_true, if_false] <;>
        rw [lookup_setField_ne _ _ _ _ (Ne.symm (histKey_ne_cache_key now.dateStr))] <;>
        exact lookup_setField_self st.kv _ _
  · unfold breadth_daily_main
    rw [hhit1]
    dsimp only
    unfold breadthDailyFresh
    dsimp only
    have hset : (set_cached true st "breadth:daily" (breadthDailyBody uc counts now)
        3600).2 = { st with kv := (setField st.kv "breadth:daily"
          (breadthDailyBody uc counts now)) } := by
      simp [set_cached, rSetex, hf]
    rw [hset]
    cases hs : should_save_daily_snapshot true
        { st with kv := (setField st.kv "breadth:daily" (breadthDailyBody uc counts now)) }
        now "breadth:daily" with
    | false => simpa using hf
    | true =>
      simp only [if_true]
      unfold save_daily_snapshot
      simp only [Bool.not_true, Option.getD_none, rSet, rZadd, rZremRangeToInf, hf,
        bd_hist_key]
      cases hd : strptimeYMD now.dateStr <;> simp [hf]

/-- C3 (amended): within the TTL window the second call with
`forceRefresh=false` is a pure cache read, but it is not byte-identical to
the first: it returns the first call's JSON object with the `cached` field
flipped to `true`; every field other than `cached` is identical. -/
theorem second_call_differs_only_in_cached_flag
    (st : RState) (uc uc' : Nat) (counts counts' : FinvizCounts) (now now' : Clock)
    (hf : st.failing = false)
    (hmiss : st.kv.lookup "breadth:daily" = none) :
    (breadth_daily_main true
        ((breadth_daily_main true st false uc counts now).2) false uc' counts' now').1 =
      ((breadth_daily_main true st false uc counts now).1).setKey "cached" (.bool true) ∧
    ∀ k, k ≠ "cached" →
      ((breadth_daily_main true
          ((breadth_daily_main true st false uc counts now).2) false uc' counts' now').1).getKey k
        = ((breadth_daily_main true st false uc counts now).1).getKey k := by
  obtain ⟨hbody1, hlook, hfail2⟩ := breadth_daily_fresh_state st uc counts now hf hmiss
  have hhit2 : breadthDailyHit true ((breadth_daily_main true st false uc counts now).2) false =
      some (breadthDailyBody uc counts now) := by
    simp only [breadthDailyHit, get_cached, rGet, hfail2, hlook]
    rfl
  have hsecond : (breadth_daily_main true
      ((breadth_daily_main true st false uc counts now).2) false uc' counts' now').1 =
      (breadthDailyBody uc counts now).setKey "cached" (.bool true) := by
    generalize hst2 : (breadth_daily_main true st false uc counts now).2 = st2 at hhit2 ⊢
    unfold breadth_daily_main
    rw [hhit2]
  constructor
  · rw [hsecond, hbody1]
  · intro k hk
    rw [hsecond, hbody1, getKey_setKey_ne _ _ _ _ hk]

/-- Witness for C3 (amended): concrete back-to-back calls from the empty
store; the `timestamp` field (among all non-`cached` fields) agrees. -/
theorem second_call_differs_only_in_cached_flag_witness :
    (breadth_daily_main true
        ((breadth_daily_main true ⟨false, [], []⟩ false 7
          ⟨2, 1, 0, 0, 0, 0, 0, 0, 0, 0, 0, 0⟩ ⟨"2026-02-06", 1770400000⟩).2) false 9
        ⟨3, 3, 3, 3, 3, 3, 3, 3, 3, 3, 3, 3⟩ ⟨"2026-02-07", 1770500000⟩).1 =
      ((breadth_daily_main true ⟨false, [], []⟩ false 7
        ⟨2, 1, 0, 0, 0, 0, 0, 0, 0, 0, 0, 0⟩ ⟨"2026-02-06", 1770400000⟩).1).setKey
        "cached" (.bool true) ∧
    ((breadth_daily_main true
        ((breadth_daily_main true ⟨false, [], []⟩ false 7
          ⟨2, 1, 0, 0, 0, 0, 0, 0, 0, 0, 0, 0⟩ ⟨"2026-02-06", 1770400000⟩).2) false 9
        ⟨3, 3, 3, 3, 3, 3, 3, 3, 3, 3, 3, 3⟩ ⟨"2026-02-07", 1770500000⟩).1).getKey "timestamp"
      = ((breadth_daily_main true ⟨false, [], []⟩ false 7
        ⟨2, 1, 0, 0, 0, 0, 0, 0, 0, 0, 0, 0⟩ ⟨"2026-02-06", 1770400000⟩).1).getKey
        "timestamp" := by
  have h := second_call_differs_only_in_cached_flag ⟨false, [], []⟩ 7 9
    ⟨2, 1, 0, 0, 0, 0, 0, 0, 0, 0, 0, 0⟩ ⟨3, 3, 3, 3, 3, 3, 3, 3, 3, 3, 3, 3⟩
    ⟨"2026-02-06", 1770400000⟩ ⟨"2026-02-07", 1770500000⟩ rfl rfl
  exact ⟨h.1, h.2 "timestamp" (by decide)⟩

/-! ## Date-order arithmetic -/

lemma isLeap_iff (y : Nat) : isLeap y = true ↔ ((y % 4 = 0 ∧ y % 100 ≠ 0) ∨ y % 400 = 0) := by
  simp [isLeap, Bool.or_eq_true, Bool.and_eq_true, beq_iff_eq, bne_iff_ne]

lemma leapCount_succ (y : Nat) (hy : 1 ≤ y) :
    leapCount y = leapCount (y - 1) + (if isLeap y then 1 else 0) := by
  have hiff := isLeap_iff y
  by_cases hL : isLeap y = true
  · rw [if_pos hL]
    have h := hiff.mp hL
    unfold leapCount
    omega
  · rw [if_neg hL]
    have h : ¬ ((y % 4 = 0 ∧ y % 100 ≠ 0) ∨ y % 400 = 0) := fun hc => hL (hiff.mpr hc)
    unfold leapCount
    omega

lemma leapCount_mono {a b : Nat} (h : a ≤ b) : leapCount a ≤ leapCount b := by
  unfold leapCount
  omega

lemma cum_add_len_le (L : Bool) (m1 m2 : Nat) (h1 : 1 ≤ m1) (h2 : m2 ≤ 12) (h : m1 < m2) :
    cumDaysBefore L m1 + monthLength L m1 ≤ cumDaysBefore L m2 := by
  have key : ∀ (L : Bool) (a b : Fin 13), a.val < b.val → 1 ≤ a.val →
      cumDaysBefore L a.val + monthLength L a.val ≤ cumDaysBefore L b.val := by decide
  exact key L ⟨m1, by omega⟩ ⟨m2, by omega⟩ (by simpa) (by simpa)

lemma cum_add_len_le_year (L : Bool) (m : Nat) (h1 : 1 ≤ m) (h2 : m ≤ 12) :
    cumDaysBefore L m + monthLength L m ≤ (if L then 366 else 365) := by
  have key : ∀ (L : Bool) (a : Fin 13), 1 ≤ a.val →
      cumDaysBefore L a.val + monthLength L a.val ≤ (if L then 366 else 365) := by decide
  exact key L ⟨m, by omega⟩ (by simpa)

/-- Strict monotonicity of the day count over valid dates. -/
lemma daysFromOrigin_lt (a b : PyDate) (ha : a.Valid) (hb : b.Valid) (hab : a.Before b) :
    daysFromOrigin a < daysFromOrigin b := by
  obtain ⟨hay, ham1, ham2, had1, had2⟩ := ha
  obtain ⟨hby, hbm1, hbm2, hbd1, hbd2⟩ := hb
  unfold daysInMonth at had2 hbd2
  rcases hab with hy | ⟨hy, hm⟩ | ⟨hy, hm, hd⟩
  · -- a.year < b.year
    have h1 : cumDaysBefore (isLeap a.year) a.month + (a.day - 1) <
        (if isLeap a.year then 366 else 365) := by
      have := cum_add_len_le_year (isLeap a.year) a.month ham1 ham2
      omega
    have h2 : 365 * (a.year - 1) + leapCount (a.year - 1) +
        (if isLeap a.year then 366 else 365) ≤ 365 * a.year + leapCount a.year := by
      have := leapCount_succ a.year hay
      by_cases hL : isLeap a.year = true <;> simp [hL] at this ⊢ <;> omega
    have h3 : 365 * a.year + leapCount a.year ≤
        365 * (b.year - 1) + leapCount (b.year - 1) := by
      have hle : a.year ≤ b.year - 1 := by omega
      have := leapCount_mono hle
      have : 365 * a.year ≤ 365 * (b.year - 1) := by omega
      have := leapCount_mono hle
      omega
    unfold daysFromOrigin
    omega
  · -- same year, a.month < b.month
    have h1 : cumDaysBefore (isLeap a.year) a.month + monthLength (isLeap a.year) a.month ≤
        cumDaysBefore (isLeap a.year) b.month := cum_add_len_le _ _ _ ham1 hbm2 hm
    unfold daysFromOrigin
    rw [hy] at h1 had2 ⊢
    omega
  · -- same year and month, a.day < b.day
    unfold daysFromOrigin
    rw [hy, hm]
    omega

lemma dateToTs_lt (a b : PyDate) (ha : a.Valid) (hb : b.Valid) (hab : a.Before b) :
    dateToTs a < dateToTs b := by
  have := daysFromOrigin_lt a b ha hb hab
  unfold dateToTs
  omega

lemma before_trichotomy (a b : PyDate) : a = b ∨ a.Before b ∨ b.Before a := by
  obtain ⟨ay, am, ad⟩ := a
  obtain ⟨by', bm, bd⟩ := b
  simp only [PyDate.Before, PyDate.mk.injEq]
  omega

/-- Over valid dates, timestamp order characterizes date order. -/
lemma before_of_dateToTs_lt (a b : PyDate) (ha : a.Valid) (hb : b.Valid)
    (h : dateToTs a < dateToTs b) : a.Before b := by
  rcases before_trichotomy a b with rfl | hab | hba
  · omega
  · exact hab
  · have := dateToTs_lt b a hb ha hba
    omega

lemma strptime_valid (s : String) (d : PyDate) (h : strptimeYMD s = some d) : d.Valid := by
  unfold strptimeYMD at h
  split at h
  · split at h
    · split at h
      · dsimp only at h
        split at h
        · exact Option.some.inj h ▸ ‹_›
        · exact absurd h (by simp)
      · exact absurd h (by simp)
    · exact absurd h (by simp)
  · exact absurd h (by simp)

lemma except_bind_ok {ε α β : Type} (a : α) (f : α → Except ε β) :
    ((Except.ok a : Except ε α) >>= f) = f a := rfl

/-- `ZREVRANGE key 0 (days-1)` is the `days`-prefix of the reverse-ordered
members whenever `days ≥ 1`. -/
lemma rZrevrange_take (st : RState) (k : String) (days : Int) (hf : st.failing = false)
    (hd : 1 ≤ days) :
    rZrevrange st k 0 (days - 1) = .ok (((st.zsetOf k).map Prod.fst).take days.toNat) := by
  unfold rZrevrange
  rw [hf]
  simp only [Bool.false_eq_true, if_false]
  congr 1
  have hlen : (((st.zsetOf k).map Prod.fst) : List String).length = (st.zsetOf k).length :=
    List.length_map _ _
  by_cases hn : (st.zsetOf k).length = 0
  · have : ((st.zsetOf k).map Prod.fst) = [] := List.eq_nil_of_length_eq_zero (by omega)
    simp [this]
  · have h0 : ¬ ((0 : Int) < 0) := by omega
    rw [if_neg h0]
    have he : ¬ (days - 1 < 0) := by omega
    rw [if_neg he]
    rw [show Int.toNat 0 = 0 from rfl, List.drop_zero, List.take_eq_take]
    omega

/-- The read loop of `get_history` collects, in index order, each date whose
value key is present, skipping the missing ones. -/
lemma getHistoryLoop_ok (st : RState) (kp : String) (dates : List String)
    (hf : st.failing = false) :
    getHistoryLoop st kp dates =
      .ok (dates.filterMap (fun date =>
        (st.kv.lookup (kp ++ ":history:" ++ date)).map (fun v => (date, v)))) := by
  induction dates with
  | nil => rfl
  | cons d rest ih =>
    unfold getHistoryLoop
    rw [show rGet st (kp ++ ":history:" ++ d) =
        .ok (st.kv.lookup (kp ++ ":history:" ++ d)) from by simp [rGet, hf]]
    rw [except_bind_ok, ih, except_bind_ok, List.filterMap_cons]
    cases hl : st.kv.lookup (kp ++ ":history:" ++ d) <;> simp

lemma map_fst_filterMap_lookup (f : String → Option Json) (mems : List String) :
    ((mems.filterMap (fun date => (f date).map (fun v => (date, v)))).map Prod.fst) =
      mems.filter (fun date => (f date).isSome) := by
  induction mems with
  | nil => rfl
  | cons d rest ih =>
    rw [List.filterMap_cons, List.filter_cons]
    cases hl : f d <;> simp [ih]

lemma filterMap_length_of_isSome {α β : Type} (f : α → Option β) (l : List α)
    (h : ∀ a ∈ l, (f a).isSome) : (l.filterMap f).length = l.length := by
  induction l with
  | nil => rfl
  | cons a rest ih =>
    rw [List.filterMap_cons]
    cases hl : f a with
    | none =>
      exact absurd (h a (List.mem_cons_self a rest)) (by simp [hl])
    | some b =>
      simp only [List.length_cons]
      rw [ih (fun x hx => h x (List.mem_cons_of_mem a hx))]

/-- Characterization of `get_history` for `days ≥ 1` on a healthy backend. -/
lemma get_history_eq (st : RState) (kp : String) (days : Int)
    (hf : st.failing = false) (hd : 1 ≤ days) :
    get_history true st kp days =
      ((((st.zsetOf (kp ++ ":history:dates")).map Prod.fst).take days.toNat).filterMap
        (fun date => (st.kv.lookup (kp ++ ":history:" ++ date)).map (fun v => (date, v)))) := by
  unfold get_history
  simp only [Bool.not_true, Bool.false_eq_true, if_false]
  rw [rZrevrange_take st _ days hf hd]
  dsimp only
  rw [getHistoryLoop_ok st kp _ hf]

/-- Any entry returned by `get_history` (for any `days`, including the
negative-index regime) pairs an indexed member with its stored value. -/
lemma get_history_mem_subset (st : RState) (kp : String) (days : Int)
    (hf : st.failing = false) :
    ∀ x ∈ get_history true st kp days,
      x.1 ∈ ((st.zsetOf (kp ++ ":history:dates")).map Prod.fst) ∧
      st.kv.lookup (kp ++ ":history:" ++ x.1) = some x.2 := by
  intro x hx
  unfold get_history at hx
  simp only [Bool.not_true, Bool.false_eq_true, if_false] at hx
  rw [show rZrevrange st (kp ++ ":history:dates") 0 (days - 1) =
      .ok ((((st.zsetOf (kp ++ ":history:dates")).map Prod.fst).drop
        (if (0:Int) < 0 then 0 else Int.toNat 0)).take
        ((if days - 1 < 0 then ((st.zsetOf (kp ++ ":history:dates")).map Prod.fst).length
            + (days - 1)
          else min (days - 1) (((st.zsetOf (kp ++ ":history:dates")).map
            Prod.fst).length - 1)) - (if (0:Int) < 0 then
              max ((((st.zsetOf (kp ++ ":history:dates")).map Prod.fst).length : Int) + 0) 0
            else 0) + 1).toNat) from by
    unfold rZrevrange
    rw [hf]
    simp only [Bool.false_eq_true, if_false]
    norm_num] at hx
  dsimp only at hx
  rw [getHistoryLoop_ok st kp _ hf] at hx
  dsimp only at hx
  obtain ⟨date, hdate, hfx⟩ := List.mem_filterMap.mp hx
  obtain ⟨v, hv, hxeq⟩ := Option.map_eq_some'.mp hfx
  have hdm : date ∈ ((st.zsetOf (kp ++ ":history:dates")).map Prod.fst) :=
    List.drop_subset _ _ (List.take_subset _ _ hdate)
  cases hxeq
  exact ⟨hdm, hv⟩

/-- C7 (counterexample): `get_history` with `days = 0` returns *all* stored
entries, not at most `0`: `zrevrange(key, 0, -1)` hits the Redis
negative-index convention where `-1` denotes the last element. -/
theorem get_history_days_zero_counterexample :
    (get_history true
      ⟨false,
       [("s:history:2026-02-05", Json.num 1), ("s:history:2026-02-06", Json.num 2)],
       [("s:history:dates", [("2026-02-06", 1770336000), ("2026-02-05", 1770249600)])]⟩
      "s" 0).length = 2 :=
  rfl

/-- C7 (amended): for every requested count `days ≥ 1` on a well-formed date
index, `get_history` returns exactly the `days`-prefix of the index (newest
first) with each date paired to its stored value and dates with missing
values skipped; hence at most `days` entries, exactly the stored count when
fewer than `days` exist and all values are present, and the output is ordered
newest date first.  For `days ≤ 0` the Redis negative-index semantics take
over (see the counterexample). -/
theorem get_history_spec (st : RState) (kp : String) (days : Int)
    (hf : st.failing = false) (hd : 1 ≤ days)
    (hwf : ZIdxWf (st.zsetOf (kp ++ ":history:dates"))) :
    get_history true st kp days =
      ((((st.zsetOf (kp ++ ":history:dates")).map Prod.fst).take days.toNat).filterMap
        (fun date => (st.kv.lookup (kp ++ ":history:" ++ date)).map (fun v => (date, v)))) ∧
    (get_history true st kp days).length ≤ days.toNat ∧
    ((st.zsetOf (kp ++ ":history:dates")).length ≤ days.toNat →
      (∀ p ∈ st.zsetOf (kp ++ ":history:dates"),
        (st.kv.lookup (kp ++ ":history:" ++ p.1)).isSome) →
      (get_history true st kp days).length = (st.zsetOf (kp ++ ":history:dates")).length) ∧
    ((get_history true st kp days).map Prod.fst).Pairwise (fun a b =>
      ∀ da db, strptimeYMD a = some da → strptimeYMD b = some db → db.Before da) := by
  have heq := get_history_eq st kp days hf hd
  refine ⟨heq, ?_, ?_, ?_⟩
  · rw [heq]
    calc ((((st.zsetOf (kp ++ ":history:dates")).map Prod.fst).take days.toNat).filterMap
          (fun date => (st.kv.lookup (kp ++ ":history:" ++ date)).map
            (fun v => (date, v)))).length
        ≤ (((st.zsetOf (kp ++ ":history:dates")).map Prod.fst).take days.toNat).length :=
          List.length_filterMap_le _ _
      _ ≤ days.toNat := by
          rw [List.length_take]
          omega
  · intro hlen hall
    rw [heq]
    have htake : (((st.zsetOf (kp ++ ":history:dates")).map Prod.fst).take days.toNat) =
        ((st.zsetOf (kp ++ ":history:dates")).map Prod.fst) :=
      List.take_of_length_le (by rw [List.length_map]; exact hlen)
    rw [htake]
    rw [filterMap_length_of_isSome _ _ ?hsome]
    · exact List.length_map _ _
    case hsome =>
      intro a ha
      obtain ⟨p, hp, rfl⟩ := List.mem_map.mp ha
      simpa using hall p hp
  · rw [heq]
    have h1 : (((((st.zsetOf (kp ++ ":history:dates")).map Prod.fst).take days.toNat).filterMap
        (fun date => (st.kv.lookup (kp ++ ":history:" ++ date)).map
          (fun v => (date, v)))).map Prod.fst) =
        (((st.zsetOf (kp ++ ":history:dates")).map Prod.fst).take days.toNat).filter
          (fun date => (st.kv.lookup (kp ++ ":history:" ++ date)).isSome) :=
      map_fst_filterMap_lookup _ _
    rw [h1]
    have hmems : (((st.zsetOf (kp ++ ":history:dates")).map Prod.fst)).Pairwise
        (fun a b => ∀ da db, strptimeYMD a = some da → strptimeYMD b = some db →
          db.Before da) := by
      rw [List.pairwise_map]
      refine hwf.1.imp_of_mem ?_
      intro p q hp hq hlt da db hpa hpb
      obtain ⟨dp, hdp, hsp⟩ := hwf.2 p hp
      obtain ⟨dq, hdq, hsq⟩ := hwf.2 q hq
      rw [hpa] at hdp
      rw [hpb] at hdq
      cases hdp
      cases hdq
      exact before_of_dateToTs_lt db da (strptime_valid _ _ hpb) (strptime_valid _ _ hpa)
        (by omega)
    exact ((hmems.sublist (List.take_sublist _ _)).sublist (List.filter_sublist _))

/-- Witness for C7 (amended): three stored daily entries, `days = 10`:
exactly the three entries come back, newest first (the spec's end-to-end
scenario). -/
theorem get_history_spec_witness :
    get_history true
      ⟨false,
       [("s:history:2026-02-04", Json.num 4), ("s:history:2026-02-05", Json.num 5),
        ("s:history:2026-02-06", Json.num 6)],
       [("s:history:dates",
         [("2026-02-06", 1770336000), ("2026-02-05", 1770249600),
          ("2026-02-04", 1770163200)])]⟩
      "s" 10 =
      [("2026-02-06", Json.num 6), ("2026-02-05", Json.num 5),
       ("2026-02-04", Json.num 4)] ∧
    (get_history true
      ⟨false,
       [("s:history:2026-02-04", Json.num 4), ("s:history:2026-02-05", Json.num 5),
        ("s:history:2026-02-06", Json.num 6)],
       [("s:history:dates",
         [("2026-02-06", 1770336000), ("2026-02-05", 1770249600),
          ("2026-02-04", 1770163200)])]⟩
      "s" 10).length = 3 := by
  have hwf : ZIdxWf ((RState.mk false
      [("s:history:2026-02-04", Json.num 4), ("s:history:2026-02-05", Json.num 5),
       ("s:history:2026-02-06", Json.num 6)]
      [("s:history:dates",
        [("2026-02-06", 1770336000), ("2026-02-05", 1770249600),
         ("2026-02-04", 1770163200)])]).zsetOf ("s" ++ ":history:dates")) := by
    constructor
    · decide
    · intro p hp
      have hp' : p = ("2026-02-06", 1770336000) ∨ p = ("2026-02-05", 1770249600) ∨
          p = ("2026-02-04", 1770163200) := by
        simpa [RState.zsetOf] using hp
      rcases hp' with rfl | rfl | rfl
      · exact ⟨⟨2026, 2, 6⟩, rfl, rfl⟩
      · exact ⟨⟨2026, 2, 5⟩, rfl, rfl⟩
      · exact ⟨⟨2026, 2, 4⟩, rfl, rfl⟩
  have h := get_history_spec
    ⟨false,
     [("s:history:2026-02-04", Json.num 4), ("s:history:2026-02-05", Json.num 5),
      ("s:history:2026-02-06", Json.num 6)],
     [("s:history:dates",
       [("2026-02-06", 1770336000), ("2026-02-05", 1770249600),
        ("2026-02-04", 1770163200)])]⟩
    "s" 10 rfl (by omega) hwf
  refine ⟨h.1.trans rfl, (h.2.2.1 (by decide) (by decide)).trans rfl⟩

/-! ## `save_daily_snapshot` state characterization (C8) -/

lemma mem_zinsertSorted (p x : String × Int) (l : List (String × Int)) :
    x ∈ zinsertSorted p l ↔ x = p ∨ x ∈ l := by
  induction l with
  | nil => simp [zinsertSorted]
  | cons q rest ih =>
    unfold zinsertSorted
    by_cases h : zBefore p q = true
    · simp [h]
    · simp only [h, Bool.false_eq_true, if_false, List.mem_cons, ih]
      tauto

lemma mem_zaddList (l : List (String × Int)) (m : String) (s : Int) (x : String × Int) :
    x ∈ zaddList l m s ↔ x = (m, s) ∨ (x ∈ l ∧ x.1 ≠ m) := by
  unfold zaddList
  rw [mem_zinsertSorted]
  simp only [List.mem_filter]
  constructor
  · rintro (rfl | ⟨hx, hne⟩)
    · exact Or.inl rfl
    · exact Or.inr ⟨hx, by simpa using hne⟩
  · rintro (rfl | ⟨hx, hne⟩)
    · exact Or.inl rfl
    · exact Or.inr ⟨hx, by simpa using hne⟩

lemma length_zinsertSorted (p : String × Int) (l : List (String × Int)) :
    (zinsertSorted p l).length = l.length + 1 := by
  induction l with
  | nil => rfl
  | cons q rest ih =>
    unfold zinsertSorted
    by_cases h : zBefore p q = true <;> simp [h, ih]

lemma length_zaddList_le (l : List (String × Int)) (m : String) (s : Int) :
    (zaddList l m s).length ≤ l.length + 1 := by
  unfold zaddList
  rw [length_zinsertSorted]
  have := List.length_filter_le (fun p => p.1 ≠ m) l
  simpa using Nat.succ_le_succ (by simpa using this)

/-- After a successful `save_daily_snapshot`: result `True`, backend still
healthy, the snapshot key holds the new data, and the date index equals the
zadd-then-prune of the old index. -/
lemma save_daily_snapshot_components (st : RState) (now : Clock) (kp : String)
    (data : Json) (date : String) (d : PyDate)
    (hf : st.failing = false) (hp : strptimeYMD date = some d) :
    (save_daily_snapshot true st now kp data (some date)).1 = true ∧
    ((save_daily_snapshot true st now kp data (some date)).2).failing = false ∧
    ((save_daily_snapshot true st now kp data (some date)).2).kv =
      setField st.kv (kp ++ ":history:" ++ date) data ∧
    ((save_daily_snapshot true st now kp data (some date)).2).zsetOf
        (kp ++ ":history:dates") =
      ((zaddList (st.zsetOf (kp ++ ":history:dates")) date (dateToTs d)).filter
        (fun p => now.ts - 30 * 86400 < p.2)) := by
  unfold save_daily_snapshot
  simp only [Bool.not_true, Bool.false_eq_true, if_false, Option.getD_some,
    rSet, rZadd, rZremRangeToInf, hf, hp]
  refine ⟨trivial, trivial, trivial, ?_⟩
  unfold RState.zsetOf
  simp [lookup_setField_self]

/-- C8: round-trip and retention.  After a successful save of `data` for a
parseable `date` within the 30-day retention window, `(date, data)` is
returned by `get_history` for any sufficiently large `days` (the value
surviving the JSON round trip, which this model treats as the identity on
the JSON AST); and every pre-existing index entry scored at or before the
30-day cutoff is pruned, hence absent from every subsequent `get_history`
result. -/
theorem save_roundtrip_and_retention (st : RState) (now : Clock) (kp : String)
    (data : Json) (date : String) (d : PyDate)
    (hf : st.failing = false) (hp : strptimeYMD date = some d)
    (hret : now.ts - 30 * 86400 < dateToTs d)
    (hts : ∀ p ∈ st.zsetOf (kp ++ ":history:dates"),
      ∃ dp, strptimeYMD p.1 = some dp ∧ p.2 = dateToTs dp) :
    (save_daily_snapshot true st now kp data (some date)).1 = true ∧
    (∀ days : Int, ((st.zsetOf (kp ++ ":history:dates")).length + 1 : Int) ≤ days →
      (date, data) ∈ get_history true
        ((save_daily_snapshot true st now kp data (some date)).2) kp days) ∧
    (∀ p ∈ st.zsetOf (kp ++ ":history:dates"), p.2 ≤ now.ts - 30 * 86400 →
      ∀ days : Int, ∀ v : Json,
        (p.1, v) ∉ get_history true
          ((save_daily_snapshot true st now kp data (some date)).2) kp days) := by
  obtain ⟨hok, hf', hkv, hzs⟩ :=
    save_daily_snapshot_components st now kp data date d hf hp
  refine ⟨hok, ?_, ?_⟩
  · intro days hdays
    have hd1 : 1 ≤ days := by
      have : (0 : Int) ≤ ((st.zsetOf (kp ++ ":history:dates")).length : Int) := by positivity
      omega
    rw [get_history_eq _ kp days hf' hd1, hzs, hkv]
    have hlen : (((zaddList (st.zsetOf (kp ++ ":history:dates")) date
        (dateToTs d)).filter (fun p => now.ts - 30 * 86400 < p.2)).map Prod.fst).length
        ≤ days.toNat := by
      rw [List.length_map]
      have h1 := List.length_filter_le (fun p => now.ts - 30 * 86400 < p.2)
        (zaddList (st.zsetOf (kp ++ ":history:dates")) date (dateToTs d))
      have h2 := length_zaddList_le (st.zsetOf (kp ++ ":history:dates")) date (dateToTs d)
      omega
    rw [List.take_of_length_le hlen]
    apply List.mem_filterMap.mpr
    refine ⟨date, ?_, ?_⟩
    · apply List.mem_map.mpr
      refine ⟨(date, dateToTs d), ?_, rfl⟩
      apply List.mem_filter.mpr
      refine ⟨?_, by simpa using hret⟩
      exact (mem_zaddList _ _ _ _).mpr (Or.inl rfl)
    · rw [lookup_setField_self]
      rfl
  · intro p hpmem hpold days v hvmem
    obtain ⟨hmem, _⟩ := get_history_mem_subset _ kp days hf' _ hvmem
    rw [hzs] at hmem
    obtain ⟨q, hq, hq1⟩ := List.mem_map.mp hmem
    obtain ⟨hqadd, hqnew⟩ := List.mem_filter.mp hq
    rcases (mem_zaddList _ _ _ _).mp hqadd with rfl | ⟨hqold, hqne⟩
    · -- the surviving entry is the freshly saved date: the old entry p then
      -- carried that same date's timestamp, contradicting its staleness
      obtain ⟨dp, hdp, hsp⟩ := hts p hpmem
      have hpd : p.1 = date := by simpa using hq1.symm
      rw [hpd, hp] at hdp
      cases hdp
      omega
    · -- a surviving old entry with the same member has the same score
      obtain ⟨dq, hdq, hsq⟩ := hts q hqold
      obtain ⟨dp, hdp, hsp⟩ := hts p hpmem
      have hqp : q.1 = p.1 := by simpa using hq1
      rw [hqp, hdp] at hdq
      cases hdq
      have : now.ts - 30 * 86400 < q.2 := by simpa using hqnew
      omega

/-- Witness for C8 at a concrete store: saving `{v: 7}` for 2026-02-06 (in
retention) keeps it retrievable, while the stale 2025-12-01 index entry is
pruned. -/
theorem save_roundtrip_and_retention_witness :
    (save_daily_snapshot true
      ⟨false, [("s:history:2025-12-01", Json.num 1)],
       [("s:history:dates",
         [("2026-02-05", 1770249600), ("2025-12-01", 1764547200)])]⟩
      ⟨"2026-02-06", 1770400000⟩ "s" (Json.num 7) (some "2026-02-06")).1 = true ∧
    ("2026-02-06", Json.num 7) ∈ get_history true
      ((save_daily_snapshot true
        ⟨false, [("s:history:2025-12-01", Json.num 1)],
         [("s:history:dates",
           [("2026-02-05", 1770249600), ("2025-12-01", 1764547200)])]⟩
        ⟨"2026-02-06", 1770400000⟩ "s" (Json.num 7) (some "2026-02-06")).2) "s" 10 ∧
    ("2025-12-01", Json.num 1) ∉ get_history true
      ((save_daily_snapshot true
        ⟨false, [("s:history:2025-12-01", Json.num 1)],
         [("s:history:dates",
           [("2026-02-05", 1770249600), ("2025-12-01", 1764547200)])]⟩
        ⟨"2026-02-06", 1770400000⟩ "s" (Json.num 7) (some "2026-02-06")).2) "s" 10 := by
  have hts : ∀ p ∈ (RState.mk false [("s:history:2025-12-01", Json.num 1)]
      [("s:history:dates",
        [("2026-02-05", 1770249600), ("2025-12-01", 1764547200)])]).zsetOf
        ("s" ++ ":history:dates"),
      ∃ dp, strptimeYMD p.1 = some dp ∧ p.2 = dateToTs dp := by
    intro p hp
    have hp' : p = ("2026-02-05", 1770249600) ∨ p = ("2025-12-01", 1764547200) := by
      simpa [RState.zsetOf] using hp
    rcases hp' with rfl | rfl
    · exact ⟨⟨2026, 2, 5⟩, rfl, rfl⟩
    · exact ⟨⟨2025, 12, 1⟩, rfl, rfl⟩
  have h := save_roundtrip_and_retention
    ⟨false, [("s:history:2025-12-01", Json.num 1)],
     [("s:history:dates", [("2026-02-05", 1770249600), ("2025-12-01", 1764547200)])]⟩
    ⟨"2026-02-06", 1770400000⟩ "s" (Json.num 7) "2026-02-06" ⟨2026, 2, 6⟩
    rfl rfl (by norm_num [dateToTs, daysFromOrigin, leapCount, cumDaysBefore, isLeap]) hts
  refine ⟨h.1, h.2.1 10 (by decide), h.2.2 ("2025-12-01", 1764547200) (by decide)
    (by norm_num) 10 (Json.num 1)⟩

/-! ## Counter characterization of `calculate_breadth_indicators` (C10) -/

lemma up4Block_counts (ch : ℚ) (acc : BreadthAcc) :
    (up4Block ch acc).up4Today = acc.up4Today + (if ch ≥ 4 then 1 else 0) ∧
    (up4Block ch acc).down4Today = acc.down4Today + (if ¬ ch ≥ 4 ∧ ch ≤ -4 then 1 else 0) ∧
    (up4Block ch acc).up25Quarter = acc.up25Quarter ∧
    (up4Block ch acc).down25Quarter = acc.down25Quarter ∧
    (up4Block ch acc).up25Month = acc.up25Month ∧
    (up4Block ch acc).down25Month = acc.down25Month ∧
    (up4Block ch acc).up50Month = acc.up50Month ∧
    (up4Block ch acc).down50Month = acc.down50Month ∧
    (up4Block ch acc).up13Days34 = acc.up13Days34 ∧
    (up4Block ch acc).down13Days34 = acc.down13Days34 := by
  unfold up4Block
  by_cases h1 : ch ≥ 4
  · simp [h1]
  · by_cases h2 : ch ≤ -4
    · simp [h1, h2]
    · simp [h1, h2]

lemma quarterBlock_counts (cp hv : ℚ) (acc : BreadthAcc) :
    (quarterBlock cp hv acc).up4Today = acc.up4Today ∧
    (quarterBlock cp hv acc).down4Today = acc.down4Today ∧
    (quarterBlock cp hv acc).up25Quarter =
      acc.up25Quarter + (if hv > 0 ∧ (cp - hv) / hv * 100 ≥ 25 then 1 else 0) ∧
    (quarterBlock cp hv acc).down25Quarter =
      acc.down25Quarter +
        (if hv > 0 ∧ ¬ (cp - hv) / hv * 100 ≥ 25 ∧ (cp - hv) / hv * 100 ≤ -25 then 1 else 0) ∧
    (quarterBlock cp hv acc).up25Month = acc.up25Month ∧
    (quarterBlock cp hv acc).down25Month = acc.down25Month ∧
    (quarterBlock cp hv acc).up50Month = acc.up50Month ∧
    (quarterBlock cp hv acc).down50Month = acc.down50Month ∧
    (quarterBlock cp hv acc).up13Days34 = acc.up13Days34 ∧
    (quarterBlock cp hv acc).down13Days34 = acc.down13Days34 := by
  unfold quarterBlock
  by_cases h1 : hv > 0
  · by_cases h2 : (cp - hv) / hv * 100 ≥ 25
    · simp [h1, h2]
    · by_cases h3 : (cp - hv) / hv * 100 ≤ -25
      · simp [h1, h2, h3]
      · simp [h1, h2, h3]
  · simp [h1]

lemma monthBlock_counts (cp hv : ℚ) (acc : BreadthAcc) :
    (monthBlock cp hv acc).up4Today = acc.up4Today ∧
    (monthBlock cp hv acc).down4Today = acc.down4Today ∧
    (monthBlock cp hv acc).up25Quarter = acc.up25Quarter ∧
    (monthBlock cp hv acc).down25Quarter = acc.down25Quarter ∧
    (monthBlock cp hv acc).up25Month =
      acc.up25Month + (if hv > 0 ∧ (cp - hv) / hv * 100 ≥ 25 then 1 else 0) ∧
    (monthBlock cp hv acc).down25Month =
      acc.down25Month +
        (if hv > 0 ∧ ¬ (cp - hv) / hv * 100 ≥ 25 ∧ (cp - hv) / hv * 100 ≤ -25 then 1 else 0) ∧
    (monthBlock cp hv acc).up50Month =
      acc.up50Month + (if hv > 0 ∧ (cp - hv) / hv * 100 ≥ 50 then 1 else 0) ∧
    (monthBlock cp hv acc).down50Month =
      acc.down50Month +
        (if hv > 0 ∧ ¬ (cp - hv) / hv * 100 ≥ 50 ∧ (cp - hv) / hv * 100 ≤ -50 then 1 else 0) ∧
    (monthBlock cp hv acc).up13Days34 = acc.up13Days34 ∧
    (monthBlock cp hv acc).down13Days34 = acc.down13Days34 := by
  unfold monthBlock
  by_cases h1 : hv > 0
  · by_cases h2 : (cp - hv) / hv * 100 ≥ 25
    · by_cases h4 : (cp - hv) / hv * 100 ≥ 50
      · simp [h1, h2, h4]
      · by_cases h5 : (cp - hv) / hv * 100 ≤ -50
        · simp [h1, h2, h4, h5]
        · simp [h1, h2, h4, h5]
    · by_cases h3 : (cp - hv) / hv * 100 ≤ -25
      · by_cases h4 : (cp - hv) / hv * 100 ≥ 50
        · simp [h1, h2, h3, h4]
        · by_cases h5 : (cp - hv) / hv * 100 ≤ -50
          · simp [h1, h2, h3, h4, h5]
          · simp [h1, h2, h3, h4, h5]
      · by_cases h4 : (cp - hv) / hv * 100 ≥ 50
        · simp [h1, h2, h3, h4]
        · by_cases h5 : (cp - hv) / hv * 100 ≤ -50
          · simp [h1, h2, h3, h4, h5]
          · simp [h1, h2, h3, h4, h5]
  · simp [h1]

lemma d34Block_counts (cp hv : ℚ) (acc : BreadthAcc) :
    (d34Block cp hv acc).up4Today = acc.up4Today ∧
    (d34Block cp hv acc).down4Today = acc.down4Today ∧
    (d34Block cp hv acc).up25Quarter = acc.up25Quarter ∧
    (d34Block cp hv acc).down25Quarter = acc.down25Quarter ∧
    (d34Block cp hv acc).up25Month = acc.up25Month ∧
    (d34Block cp hv acc).down25Month = acc.down25Month ∧
    (d34Block cp hv acc).up50Month = acc.up50Month ∧
    (d34Block cp hv acc).down50Month = acc.down50Month ∧
    (d34Block cp hv acc).up13Days34 =
      acc.up13Days34 + (if hv > 0 ∧ (cp - hv) / hv * 100 ≥ 13 then 1 else 0) ∧
    (d34Block cp hv acc).down13Days34 =
      acc.down13Days34 +
        (if hv > 0 ∧ ¬ (cp - hv) / hv * 100 ≥ 13 ∧ (cp - hv) / hv * 100 ≤ -13 then 1 else 0) := by
  unfold d34Block
  by_cases h1 : hv > 0
  · by_cases h2 : (cp - hv) / hv * 100 ≥ 13
    · simp [h1, h2]
    · by_cases h3 : (cp - hv) / hv * 100 ≤ -13
      · simp [h1, h2, h3]
      · simp [h1, h2, h3]
  · simp [h1]

set_option maxHeartbeats 1000000 in
/-- Effect of one loop iteration on the ten mover counters: each counter
gains one exactly when the entry satisfies the corresponding bucket
predicate (in particular SPY and price-less entries never count). -/
lemma breadthStep_counts (h21 h34 h63 : String → ℚ) (acc : BreadthAcc)
    (e : String × Snapshot) :
    (breadthStep h21 h34 h63 acc e).up4Today =
      acc.up4Today + (if hitsUp4 e then 1 else 0) ∧
    (breadthStep h21 h34 h63 acc e).down4Today =
      acc.down4Today + (if hitsDown4 e then 1 else 0) ∧
    (breadthStep h21 h34 h63 acc e).up25Quarter =
      acc.up25Quarter + (if hitsUp25Q h63 e then 1 else 0) ∧
    (breadthStep h21 h34 h63 acc e).down25Quarter =
      acc.down25Quarter + (if hitsDown25Q h63 e then 1 else 0) ∧
    (breadthStep h21 h34 h63 acc e).up25Month =
      acc.up25Month + (if hitsUp25M h21 e then 1 else 0) ∧
    (breadthStep h21 h34 h63 acc e).down25Month =
      acc.down25Month + (if hitsDown25M h21 e then 1 else 0) ∧
    (breadthStep h21 h34 h63 acc e).up50Month =
      acc.up50Month + (if hitsUp50M h21 e then 1 else 0) ∧
    (breadthStep h21 h34 h63 acc e).down50Month =
      acc.down50Month + (if hitsDown50M h21 e then 1 else 0) ∧
    (breadthStep h21 h34 h63 acc e).up13Days34 =
      acc.up13Days34 + (if hitsUp13 h34 e then 1 else 0) ∧
    (breadthStep h21 h34 h63 acc e).down13Days34 =
      acc.down13Days34 + (if hitsDown13 h34 e then 1 else 0) := by
  dsimp only [breadthStep]
  by_cases hp : e.2.currentPrice ≤ 0
  case pos =>
    rw [if_pos hp]
    have hnp : ¬ (e.2.currentPrice > 0) := not_lt.mpr hp
    simp [hitsUp4, hitsDown4, hitsUp25Q, hitsDown25Q, hitsUp25M, hitsDown25M,
      hitsUp50M, hitsDown50M, hitsUp13, hitsDown13, hnp]
  case neg =>
    rw [if_neg hp]
    by_cases hspy : e.1 = "SPY"
    case pos =>
      rw [if_pos hspy]
      simp [hitsUp4, hitsDown4, hitsUp25Q, hitsDown25Q, hitsUp25M, hitsDown25M,
        hitsUp50M, hitsDown50M, hitsUp13, hitsDown13, hspy]
    case neg =>
    rw [if_neg hspy]
    have hpos : (0 : ℚ) < e.2.currentPrice := not_le.mp hp
    obtain ⟨a1, a2, a3, a4, a5, a6, a7, a8, a9, a10⟩ :=
      up4Block_counts e.2.changePct acc
    obtain ⟨b1, b2, b3, b4, b5, b6, b7, b8, b9, b10⟩ :=
      quarterBlock_counts e.2.currentPrice (h63 e.1) (up4Block e.2.changePct acc)
    obtain ⟨c1, c2, c3, c4, c5, c6, c7, c8, c9, c10⟩ :=
      monthBlock_counts e.2.currentPrice (h21 e.1)
        (quarterBlock e.2.currentPrice (h63 e.1) (up4Block e.2.changePct acc))
    obtain ⟨d1, d2, d3, d4, d5, d6, d7, d8, d9, d10⟩ :=
      d34Block_counts e.2.currentPrice (h34 e.1)
        (monthBlock e.2.currentPrice (h21 e.1)
          (quarterBlock e.2.currentPrice (h63 e.1) (up4Block e.2.changePct acc)))
    refine ⟨?_, ?_, ?_, ?_, ?_, ?_, ?_, ?_, ?_, ?_⟩
    · simp [d1, c1, b1, a1, hitsUp4, hspy, hpos]
    · simp [d2, c2, b2, a2, hitsDown4, hspy, hpos]
    · simp [d3, c3, b3, a3, hitsUp25Q, hspy, hpos]
    · simp [d4, c4, b4, a4, hitsDown25Q, hspy, hpos]
    · simp [d5, c5, b5, a5, hitsUp25M, hspy, hpos]
    · simp [d6, c6, b6, a6, hitsDown25M, hspy, hpos]
    · simp [d7, c7, b7, a7, hitsUp50M, hspy, hpos]
    · simp [d8, c8, b8, a8, hitsDown50M, hspy, hpos]
    · simp [d9, c9, b9, a9, hitsUp13, hspy, hpos]
    · simp [d10, c10, b10, a10, hitsDown13, hspy, hpos]

/-- The fold over the snapshot entries counts, for each bucket, exactly the
entries satisfying its predicate. -/
lemma breadth_fold_counts (h21 h34 h63 : String → ℚ)
    (l : List (String × Snapshot)) (acc : BreadthAcc) :
    (l.foldl (breadthStep h21 h34 h63) acc).up4Today =
      acc.up4Today + l.countP hitsUp4 ∧
    (l.foldl (breadthStep h21 h34 h63) acc).down4Today =
      acc.down4Today + l.countP hitsDown4 ∧
    (l.foldl (breadthStep h21 h34 h63) acc).up25Quarter =
      acc.up25Quarter + l.countP (hitsUp25Q h63) ∧
    (l.foldl (breadthStep h21 h34 h63) acc).down25Quarter =
      acc.down25Quarter + l.countP (hitsDown25Q h63) ∧
    (l.foldl (breadthStep h21 h34 h63) acc).up25Month =
      acc.up25Month + l.countP (hitsUp25M h21) ∧
    (l.foldl (breadthStep h21 h34 h63) acc).down25Month =
      acc.down25Month + l.countP (hitsDown25M h21) ∧
    (l.foldl (breadthStep h21 h34 h63) acc).up50Month =
      acc.up50Month + l.countP (hitsUp50M h21) ∧
    (l.foldl (breadthStep h21 h34 h63) acc).down50Month =
      acc.down50Month + l.countP (hitsDown50M h21) ∧
    (l.foldl (breadthStep h21 h34 h63) acc).up13Days34 =
      acc.up13Days34 + l.countP (hitsUp13 h34) ∧
    (l.foldl (breadthStep h21 h34 h63) acc).down13Days34 =
      acc.down13Days34 + l.countP (hitsDown13 h34) := by
  induction l generalizing acc with
  | nil => simp
  | cons e rest ih =>
    obtain ⟨s1, s2, s3, s4, s5, s6, s7, s8, s9, s10⟩ :=
      breadthStep_counts h21 h34 h63 acc e
    obtain ⟨r1, r2, r3, r4, r5, r6, r7, r8, r9, r10⟩ :=
      ih (breadthStep h21 h34 h63 acc e)
    refine ⟨?_, ?_, ?_, ?_, ?_, ?_, ?_, ?_, ?_, ?_⟩ <;>
      simp only [List.foldl_cons, List.countP_cons, r1, r2, r3, r4, r5, r6, r7, r8,
        r9, r10, s1, s2, s3, s4, s5, s6, s7, s8, s9, s10] <;>
      omega

lemma countP_filter_of_imp {α : Type} (p q : α → Bool) (l : List α)
    (h : ∀ a, p a = true → q a = true) :
    (l.filter q).countP p = l.countP p := by
  induction l with
  | nil => rfl
  | cons a rest ih =>
    by_cases hq : q a = true
    · rw [List.filter_cons_of_pos hq, List.countP_cons, List.countP_cons, ih]
    · rw [List.filter_cons_of_neg (by simpa using hq), List.countP_cons, ih]
      have hpa : p a = false := by
        cases hpa : p a
        · rfl
        · exact absurd (h a hpa) hq
      simp [hpa]

lemma nodup_subset_length_le (l1 l2 : List String) (h1 : l1.Nodup)
    (h2 : ∀ a ∈ l1, a ∈ l2) : l1.length ≤ l2.dedup.length := by
  have hcard := List.toFinset_card_of_nodup h1
  have hsub : l1.toFinset ⊆ l2.toFinset := fun a ha =>
    List.mem_toFinset.mpr (h2 a (List.mem_toFinset.mp ha))
  have hle := Finset.card_le_card hsub
  rw [hcard, List.card_toFinset] at hle
  exact hle

/-- Any bucket count is bounded by the (deduplicated) universe size when the
snapshot keys are distinct and drawn from the universe plus SPY. -/
lemma countP_le_universe (p : String × Snapshot → Bool)
    (l : List (String × Snapshot))
    (hp : ∀ e, p e = true → e.1 ≠ "SPY")
    (hnd : (l.map Prod.fst).Nodup)
    (hsub : ∀ k ∈ l.map Prod.fst, k ∈ rawBreadthUniverse ∨ k = "SPY") :
    l.countP p ≤ BREADTH_UNIVERSE.length := by
  have h1 : l.countP p ≤ l.countP (fun e => decide (e.1 ≠ "SPY")) :=
    List.countP_mono_left (fun e _ hpe => by simpa using hp e hpe)
  have h2 : l.countP (fun e => decide (e.1 ≠ "SPY")) =
      (l.filter (fun e => decide (e.1 ≠ "SPY"))).length :=
    List.countP_eq_length_filter _ _
  have h3 : ((l.filter (fun e => decide (e.1 ≠ "SPY"))).map Prod.fst).Nodup :=
    List.Nodup.sublist (List.Sublist.map Prod.fst (List.filter_sublist l)) hnd
  have h4 : ∀ a ∈ (l.filter (fun e => decide (e.1 ≠ "SPY"))).map Prod.fst,
      a ∈ rawBreadthUniverse := by
    intro a ha
    obtain ⟨e, he, rfl⟩ := List.mem_map.mp ha
    obtain ⟨hel, hpe⟩ := List.mem_filter.mp he
    rcases hsub e.1 (List.mem_map_of_mem _ hel) with h | h
    · exact h
    · exact absurd h (by simpa using hpe)
  have h5 := nodup_subset_length_le _ rawBreadthUniverse h3 h4
  rw [List.length_map] at h5
  calc l.countP p ≤ _ := h1
    _ = _ := h2
    _ ≤ rawBreadthUniverse.dedup.length := h5
    _ = BREADTH_UNIVERSE.length := rfl

/-- C10: `calculate_breadth_indicators` never counts SPY in any mover bucket
(every counter is unchanged when the SPY entry is filtered out of the
snapshots — SPY feeds only the `market` fields), and for snapshot keys drawn
from `BREADTH_UNIVERSE` plus SPY, every one of the ten counters is at most
the universe size excluding SPY (`BREADTH_UNIVERSE.length`; non-negativity is
by the `Nat` type). -/
theorem spy_excluded_and_counters_bounded
    (snapshots : List (String × Snapshot)) (h21 h34 h63 : String → ℚ)
    (r5 r10 t : Option ℚ)
    (hnd : (snapshots.map Prod.fst).Nodup)
    (hsub : ∀ k ∈ snapshots.map Prod.fst, k ∈ rawBreadthUniverse ∨ k = "SPY") :
    ((calculate_breadth_indicators snapshots h21 h34 h63 r5 r10 t).up4PlusToday =
      (calculate_breadth_indicators (snapshots.filter (fun e => e.1 ≠ "SPY"))
        h21 h34 h63 r5 r10 t).up4PlusToday ∧
    (calculate_breadth_indicators snapshots h21 h34 h63 r5 r10 t).down4PlusToday =
      (calculate_breadth_indicators (snapshots.filter (fun e => e.1 ≠ "SPY"))
        h21 h34 h63 r5 r10 t).down4PlusToday ∧
    (calculate_breadth_indicators snapshots h21 h34 h63 r5 r10 t).up25PlusQuarter =
      (calculate_breadth_indicators (snapshots.filter (fun e => e.1 ≠ "SPY"))
        h21 h34 h63 r5 r10 t).up25PlusQuarter ∧
    (calculate_breadth_indicators snapshots h21 h34 h63 r5 r10 t).down25PlusQuarter =
      (calculate_breadth_indicators (snapshots.filter (fun e => e.1 ≠ "SPY"))
        h21 h34 h63 r5 r10 t).down25PlusQuarter ∧
    (calculate_breadth_indicators snapshots h21 h34 h63 r5 r10 t).up25PlusMonth =
      (calculate_breadth_indicators (snapshots.filter (fun e => e.1 ≠ "SPY"))
        h21 h34 h63 r5 r10 t).up25PlusMonth ∧
    (calculate_breadth_indicators snapshots h21 h34 h63 r5 r10 t).down25PlusMonth =
      (calculate_breadth_indicators (snapshots.filter (fun e => e.1 ≠ "SPY"))
        h21 h34 h63 r5 r10 t).down25PlusMonth ∧
    (calculate_breadth_indicators snapshots h21 h34 h63 r5 r10 t).up50PlusMonth =
      (calculate_breadth_indicators (snapshots.filter (fun e => e.1 ≠ "SPY"))
        h21 h34 h63 r5 r10 t).up50PlusMonth ∧
    (calculate_breadth_indicators snapshots h21 h34 h63 r5 r10 t).down50PlusMonth =
      (calculate_breadth_indicators (snapshots.filter (fun e => e.1 ≠ "SPY"))
        h21 h34 h63 r5 r10 t).down50PlusMonth ∧
    (calculate_breadth_indicators snapshots h21 h34 h63 r5 r10 t).up13Plus34Days =
      (calculate_breadth_indicators (snapshots.filter (fun e => e.1 ≠ "SPY"))
        h21 h34 h63 r5 r10 t).up13Plus34Days ∧
    (calculate_breadth_indicators snapshots h21 h34 h63 r5 r10 t).down13Plus34Days =
      (calculate_breadth_indicators (snapshots.filter (fun e => e.1 ≠ "SPY"))
        h21 h34 h63 r5 r10 t).down13Plus34Days) ∧
    ((calculate_breadth_indicators snapshots h21 h34 h63 r5 r10 t).up4PlusToday ≤ BREADTH_UNIVERSE.length ∧
    (calculate_breadth_indicators snapshots h21 h34 h63 r5 r10 t).down4PlusToday ≤ BREADTH_UNIVERSE.length ∧
    (calculate_breadth_indicators snapshots h21 h34 h63 r5 r10 t).up25PlusQuarter ≤ BREADTH_UNIVERSE.length ∧
    (calculate_breadth_indicators snapshots h21 h34 h63 r5 r10 t).down25PlusQuarter ≤ BREADTH_UNIVERSE.length ∧
    (calculate_breadth_indicators snapshots h21 h34 h63 r5 r10 t).up25PlusMonth ≤ BREADTH_UNIVERSE.length ∧
    (calculate_breadth_indicators snapshots h21 h34 h63 r5 r10 t).down25PlusMonth ≤ BREADTH_UNIVERSE.length ∧
    (calculate_breadth_indicators snapshots h21 h34 h63 r5 r10 t).up50PlusMonth ≤ BREADTH_UNIVERSE.length ∧
    (calculate_breadth_indicators snapshots h21 h34 h63 r5 r10 t).down50PlusMonth ≤ BREADTH_UNIVERSE.length ∧
    (calculate_breadth_indicators snapshots h21 h34 h63 r5 r10 t).up13Plus34Days ≤ BREADTH_UNIVERSE.length ∧
    (calculate_breadth_indicators snapshots h21 h34 h63 r5 r10 t).down13Plus34Days ≤ BREADTH_UNIVERSE.length) := by
  have hcount : ∀ l : List (String × Snapshot),
      (calculate_breadth_indicators l h21 h34 h63 r5 r10 t).up4PlusToday = l.countP (hitsUp4) ∧
      (calculate_breadth_indicators l h21 h34 h63 r5 r10 t).down4PlusToday = l.countP (hitsDown4) ∧
      (calculate_breadth_indicators l h21 h34 h63 r5 r10 t).up25PlusQuarter = l.countP (hitsUp25Q h63) ∧
      (calculate_breadth_indicators l h21 h34 h63 r5 r10 t).down25PlusQuarter = l.countP (hitsDown25Q h63) ∧
      (calculate_breadth_indicators l h21 h34 h63 r5 r10 t).up25PlusMonth = l.countP (hitsUp25M h21) ∧
      (calculate_breadth_indicators l h21 h34 h63 r5 r10 t).down25PlusMonth = l.countP (hitsDown25M h21) ∧
      (calculate_breadth_indicators l h21 h34 h63 r5 r10 t).up50PlusMonth = l.countP (hitsUp50M h21) ∧
      (calculate_breadth_indicators l h21 h34 h63 r5 r10 t).down50PlusMonth = l.countP (hitsDown50M h21) ∧
      (calculate_breadth_indicators l h21 h34 h63 r5 r10 t).up13Plus34Days = l.countP (hitsUp13 h34) ∧
      (calculate_breadth_indicators l h21 h34 h63 r5 r10 t).down13Plus34Days = l.countP (hitsDown13 h34) := by
    intro l
    have h := breadth_fold_counts h21 h34 h63 l {}
    unfold calculate_breadth_indicators
    simpa using h
  refine ⟨⟨?_, ?_, ?_, ?_, ?_, ?_, ?_, ?_, ?_, ?_⟩, ?_, ?_, ?_, ?_, ?_, ?_, ?_, ?_, ?_, ?_⟩
  · rw [(hcount snapshots).1, (hcount (snapshots.filter (fun e => e.1 ≠ "SPY"))).1]
    exact (countP_filter_of_imp _ _ _ (fun a hpa => by
      simp only [hitsUp4] at hpa
      simpa using ((of_decide_eq_true hpa).1))).symm
  · rw [(hcount snapshots).2.1, (hcount (snapshots.filter (fun e => e.1 ≠ "SPY"))).2.1]
    exact (countP_filter_of_imp _ _ _ (fun a hpa => by
      simp only [hitsDown4] at hpa
      simpa using ((of_decide_eq_true hpa).1))).symm
  · rw [(hcount snapshots).2.2.1, (hcount (snapshots.filter (fun e => e.1 ≠ "SPY"))).2.2.1]
    exact (countP_filter_of_imp _ _ _ (fun a hpa => by
      simp only [hitsUp25Q] at hpa
      simpa using ((of_decide_eq_true hpa).1))).symm
  · rw [(hcount snapshots).2.2.2.1, (hcount (snapshots.filter (fun e => e.1 ≠ "SPY"))).2.2.2.1]
    exact (countP_filter_of_imp _ _ _ (fun a hpa => by
      simp only [hitsDown25Q] at hpa
      simpa using ((of_decide_eq_true hpa).1))).symm
  · rw [(hcount snapshots).2.2.2.2.1, (hcount (snapshots.filter (fun e => e.1 ≠ "SPY"))).2.2.2.2.1]
    exact (countP_filter_of_imp _ _ _ (fun a hpa => by
      simp only [hitsUp25M] at hpa
      simpa using ((of_decide_eq_true hpa).1))).symm
  · rw [(hcount snapshots).2.2.2.2.2.1, (hcount (snapshots.filter (fun e => e.1 ≠ "SPY"))).2.2.2.2.2.1]
    exact (countP_filter_of_imp _ _ _ (fun a hpa => by
      simp only [hitsDown25M] at hpa
      simpa using ((of_decide_eq_true hpa).1))).symm
  · rw [(hcount snapshots).2.2.2.2.2.2.1, (hcount (snapshots.filter (fun e => e.1 ≠ "SPY"))).2.2.2.2.2.2.1]
    exact (countP_filter_of_imp _ _ _ (fun a hpa => by
      simp only [hitsUp50M] at hpa
      simpa using ((of_decide_eq_true hpa).1))).symm
  · rw [(hcount snapshots).2.2.2.2.2.2.2.1, (hcount (snapshots.filter (fun e => e.1 ≠ "SPY"))).2.2.2.2.2.2.2.1]
    exact (countP_filter_of_imp _ _ _ (fun a hpa => by
      simp only [hitsDown50M] at hpa
      simpa using ((of_decide_eq_true hpa).1))).symm
  · rw [(hcount snapshots).2.2.2.2.2.2.2.2.1, (hcount (snapshots.filter (fun e => e.1 ≠ "SPY"))).2.2.2.2.2.2.2.2.1]
    exact (countP_filter_of_imp _ _ _ (fun a hpa => by
      simp only [hitsUp13] at hpa
      simpa using ((of_decide_eq_true hpa).1))).symm
  · rw [(hcount snapshots).2.2.2.2.2.2.2.2.2, (hcount (snapshots.filter (fun e => e.1 ≠ "SPY"))).2.2.2.2.2.2.2.2.2]
    exact (countP_filter_of_imp _ _ _ (fun a hpa => by
      simp only [hitsDown13] at hpa
      simpa using ((of_decide_eq_true hpa).1))).symm
  · rw [(hcount snapshots).1]
    exact countP_le_universe _ snapshots (fun e hpe => by
      simp only [hitsUp4] at hpe
      exact (of_decide_eq_true hpe).1) hnd hsub
  · rw [(hcount snapshots).2.1]
    exact countP_le_universe _ snapshots (fun e hpe => by
      simp only [hitsDown4] at hpe
      exact (of_decide_eq_true hpe).1) hnd hsub
  · rw [(hcount snapshots).2.2.1]
    exact countP_le_universe _ snapshots (fun e hpe => by
      simp only [hitsUp25Q] at hpe
      exact (of_decide_eq_true hpe).1) hnd hsub
  · rw [(hcount snapshots).2.2.2.1]
    exact countP_le_universe _ snapshots (fun e hpe => by
      simp only [hitsDown25Q] at hpe
      exact (of_decide_eq_true hpe).1) hnd hsub
  · rw [(hcount snapshots).2.2.2.2.1]
    exact countP_le_universe _ snapshots (fun e hpe => by
      simp only [hitsUp25M] at hpe
      exact (of_decide_eq_true hpe).1) hnd hsub
  · rw [(hcount snapshots).2.2.2.2.2.1]
    exact countP_le_universe _ snapshots (fun e hpe => by
      simp only [hitsDown25M] at hpe
      exact (of_decide_eq_true hpe).1) hnd hsub
  · rw [(hcount snapshots).2.2.2.2.2.2.1]
    exact countP_le_universe _ snapshots (fun e hpe => by
      simp only [hitsUp50M] at hpe
      exact (of_decide_eq_true hpe).1) hnd hsub
  · rw [(hcount snapshots).2.2.2.2.2.2.2.1]
    exact countP_le_universe _ snapshots (fun e hpe => by
      simp only [hitsDown50M] at hpe
      exact (of_decide_eq_true hpe).1) hnd hsub
  · rw [(hcount snapshots).2.2.2.2.2.2.2.2.1]
    exact countP_le_universe _ snapshots (fun e hpe => by
      simp only [hitsUp13] at hpe
      exact (of_decide_eq_true hpe).1) hnd hsub
  · rw [(hcount snapshots).2.2.2.2.2.2.2.2.2]
    exact countP_le_universe _ snapshots (fun e hpe => by
      simp only [hitsDown13] at hpe
      exact (of_decide_eq_true hpe).1) hnd hsub

set_option maxRecDepth 4000 in
/-- Witness for C10: a two-entry snapshot dict (NVDA up 5%, plus SPY); the
+4% counter ignores the SPY entry and is bounded by the universe size. -/
theorem spy_excluded_and_counters_bounded_witness :
    (calculate_breadth_indicators
        [("NVDA", ⟨some 105, none, none, some 100, none, some 5⟩),
         ("SPY", ⟨some 500, none, none, some 490, none, some 2⟩)]
        (fun _ => 0) (fun _ => 0) (fun _ => 0) none none none).up4PlusToday =
      (calculate_breadth_indicators
        ([("NVDA", (⟨some 105, none, none, some 100, none, some 5⟩ : Snapshot)),
          ("SPY", ⟨some 500, none, none, some 490, none, some 2⟩)].filter
            (fun e => e.1 ≠ "SPY"))
        (fun _ => 0) (fun _ => 0) (fun _ => 0) none none none).up4PlusToday ∧
    (calculate_breadth_indicators
        [("NVDA", ⟨some 105, none, none, some 100, none, some 5⟩),
         ("SPY", ⟨some 500, none, none, some 490, none, some 2⟩)]
        (fun _ => 0) (fun _ => 0) (fun _ => 0) none none none).up4PlusToday ≤
      BREADTH_UNIVERSE.length := by
  have h := spy_excluded_and_counters_bounded
    [("NVDA", ⟨some 105, none, none, some 100, none, some 5⟩),
     ("SPY", ⟨some 500, none, none, some 490, none, some 2⟩)]
    (fun _ => 0) (fun _ => 0) (fun _ => 0) none none none
    (by decide) (by decide)
  exact ⟨h.1.1, h.2.1⟩

end IndustryRunners
